import Mathlib

/-!
Verification of the USGS declassified-imagery monitor (src/monitor.py).

The definitions below are a shallow embedding of the Python source: the
SQLite scenes/meta tables become association lists, the M2M client retry
loop becomes a recursion over the attempt budget fed by an outcome oracle,
the backfill seeder becomes a fuelled page walk over a page oracle, and the
reconciliation / notification pipeline of run_monitor becomes explicit
state passing over the Database value.  Network and filesystem effects are
represented by oracles and by event traces so that theorems can speak
about which operations were attempted.
-/

set_option maxHeartbeats 1000000

namespace DeclassMonitor

/-- Scene record as returned by the remote scene-search endpoint, restricted
to the fields the monitor reads.  The entityId is the primary key of the
remote catalog; displayId may be absent; temporalStartDate mirrors
temporalCoverage.startDate (with the Python falsy empty string kept
representable); geometry and browseUrl abstract the serialized values the
helper closures of add_scenes extract. -/
structure Scene where
  entityId : String
  displayId : Option String
  temporalStartDate : Option String
  publishDate : Option String
  geometry : Option String
  browseUrl : Option String
deriving DecidableEq

/-- Row of the scenes table (monitor.py Database._init_db).  The
first_seen_available timestamp column is not modelled (wall-clock time). -/
structure SceneRow where
  dataset : String
  display_id : Option String
  acquisition_date : Option String
  publish_date : Option String
  notified : Bool
  available : Bool
  geometry : Option String
  browse_url : Option String
deriving DecidableEq

/-- State of scenes.db: the scenes table keyed by entity_id and the meta
key/value table, both in row order. -/
structure Database where
  scenes : List (String × SceneRow)
  meta : List (String × String)
deriving DecidableEq

/-- Lookup of the first row with the given key, embedding a SELECT by
primary key. -/
def findRow {β : Type} (rows : List (String × β)) (key : String) : Option β :=
  match rows with
  | [] => none
  | p :: rest => if p.1 = key then some p.2 else findRow rest key

/-- Helper for the Python pattern date_str.split(" ")[0]. -/
def firstToken (s : String) : String :=
  (s.splitOn " ").headD s

/-- Embedding of extract_acquisition_date: temporalCoverage.startDate when
truthy, else publishDate when truthy, else None.  The Python truthiness of
an empty string is modelled explicitly. -/
def extract_acquisition_date (s : Scene) : Option String :=
  match s.temporalStartDate with
  | some d =>
    if d = "" then
      match s.publishDate with
      | some p => if p = "" then none else some (firstToken p)
      | none => none
    else some (firstToken d)
  | none =>
    match s.publishDate with
    | some p => if p = "" then none else some (firstToken p)
    | none => none

/-- Row built by Database.add_scenes for one scene (INSERT statement values;
notified defaults to 0). -/
def mkRow (s : Scene) (dataset : String) (available : Bool) : SceneRow :=
  { dataset := dataset
    display_id := s.displayId
    acquisition_date := extract_acquisition_date s
    publish_date := s.publishDate.bind (fun p => if p = "" then none else some (firstToken p))
    notified := false
    available := available
    geometry := s.geometry
    browse_url := s.browseUrl }

/-- Embedding of Database.get_known_entity_ids: all entity ids recorded for
a dataset. -/
def Database.get_known_entity_ids (db : Database) (dataset : String) : List String :=
  (db.scenes.filter (fun p => p.2.dataset = dataset)).map (fun p => p.1)

/-- Embedding of Database.get_unavailable_ids: entity ids recorded for the
dataset with available = 0. -/
def Database.get_unavailable_ids (db : Database) (dataset : String) : List String :=
  (db.scenes.filter (fun p => p.2.dataset = dataset ∧ p.2.available = false)).map (fun p => p.1)

/-- One INSERT OR IGNORE step of Database.add_scenes: a row whose primary
key already exists is left untouched, otherwise the new row is appended. -/
def insertOrIgnore (rows : List (String × SceneRow)) (s : Scene) (dataset : String)
    (available : Bool) : List (String × SceneRow) :=
  if (findRow rows s.entityId).isSome then rows
  else rows ++ [(s.entityId, mkRow s dataset available)]

/-- Row-level fold of Database.add_scenes over the scene list, in order. -/
def addFold (dataset : String) (available : Bool) (scenes : List Scene)
    (rows : List (String × SceneRow)) : List (String × SceneRow) :=
  scenes.foldl (fun acc s => insertOrIgnore acc s dataset available) rows

/-- Embedding of Database.add_scenes (executemany of INSERT OR IGNORE over
the scene list, in order). -/
def Database.add_scenes (db : Database) (scenes : List Scene) (dataset : String)
    (available : Bool) : Database :=
  { db with scenes := addFold dataset available scenes db.scenes }

/-- Assoc-list update applying f to every row whose key is listed,
embedding executemany of an UPDATE by entity_id. -/
def updateRows (rows : List (String × SceneRow)) (ids : List String)
    (f : SceneRow → SceneRow) : List (String × SceneRow) :=
  rows.map (fun p => if p.1 ∈ ids then (p.1, f p.2) else p)

/-- Embedding of Database.mark_available, including its early return on an
empty id list. -/
def Database.mark_available (db : Database) (entity_ids : List String) : Database :=
  if entity_ids = [] then db
  else { db with scenes := updateRows db.scenes entity_ids (fun r => { r with available := true }) }

/-- Embedding of Database.mark_notified. -/
def Database.mark_notified (db : Database) (entity_ids : List String) : Database :=
  { db with scenes := updateRows db.scenes entity_ids (fun r => { r with notified := true }) }

/-- Meta key used for the per-dataset seed cursor. -/
def seedCursorKey (dataset : String) : String :=
  "seed_cursor_" ++ dataset

/-- Embedding of INSERT OR REPLACE into the meta table. -/
def metaInsertOrReplace (meta : List (String × String)) (key value : String) :
    List (String × String) :=
  if (findRow meta key).isSome then
    meta.map (fun p => if p.1 = key then (key, value) else p)
  else meta ++ [(key, value)]

/-- Embedding of Database.get_seed_cursor: the stored value parsed as a
number (Python int(row[0])), defaulting to 1 when the key is absent. -/
def Database.get_seed_cursor (db : Database) (dataset : String) : Nat :=
  match findRow db.meta (seedCursorKey dataset) with
  | some v => v.toNat!
  | none => 1

/-- Embedding of Database.save_seed_cursor: the position is stored as its
decimal rendering (Python str(starting_number)). -/
def Database.save_seed_cursor (db : Database) (dataset : String) (starting_number : Nat) :
    Database :=
  { db with meta := metaInsertOrReplace db.meta (seedCursorKey dataset) (toString starting_number) }

/-- Embedding of Database.clear_seed_cursor (DELETE FROM meta WHERE key = ?). -/
def Database.clear_seed_cursor (db : Database) (dataset : String) : Database :=
  { db with meta := db.meta.filter (fun p => p.1 ≠ seedCursorKey dataset) }

/-- Embedding of Database.is_seeded. -/
def Database.is_seeded (db : Database) : Bool :=
  match findRow db.meta "all_scenes_seeded" with
  | some v => v = "1"
  | none => false

/-- Embedding of Database.mark_seeded. -/
def Database.mark_seeded (db : Database) : Database :=
  { db with meta := metaInsertOrReplace db.meta "all_scenes_seeded" "1" }

/-! USGSClient._request.  One attempt of the loop body either raises one of
the caught requests exceptions, or yields an HTTP response carrying a
status code and a decoded JSON body (errorCode / errorMessage / data).
The oracle maps the attempt index to its outcome. -/

/-- The network-level exceptions listed in the except clause of _request. -/
inductive NetExc
  | chunkedEncodingError
  | connectionError
  | timeout
  | readTimeout
deriving DecidableEq

/-- Outcome of one requests.post call inside _request. -/
inductive NetOutcome
  | exc (e : NetExc)
  | response (status : Nat) (errorCode : Option String) (errorMessage : Option String)
      (data : Option String)
deriving DecidableEq

/-- Errors _request can surface to its caller: a transient exception
re-raised after the retry budget is spent (raise last_exc), or the plain
Exception raised for a service-reported errorCode, which is not in the
caught exception tuple and propagates at once. -/
inductive ReqError
  | transient (status : Option Nat) (e : Option NetExc)
  | apiError (message : Option String)
deriving DecidableEq

/-- Classification of one attempt of the _request loop body, following the
source order: a caught network exception, an HTTPError for 502/503/504,
the HTTPError raised by raise_for_status for any 4xx or 5xx status, the
uncaught Exception for a body errorCode, or success. -/
inductive AttemptResult
  | transient (status : Option Nat) (e : Option NetExc)
  | fatal (message : Option String)
  | ok (data : Option String)
deriving DecidableEq

/-- Attempt classification for one NetOutcome. -/
def classifyAttempt : NetOutcome → AttemptResult
  | .exc e => .transient none (some e)
  | .response status errorCode errorMessage _data =>
    if status = 502 ∨ status = 503 ∨ status = 504 then
      .transient (some status) none
    else if 400 ≤ status ∧ status ≤ 599 then
      .transient (some status) none
    else
      match errorCode with
      | some _ => .fatal errorMessage
      | none => .ok _data

/-- Trace of one _request call: attempts actually made, the seconds slept
between attempts, and the final result. -/
structure ReqTrace where
  attempts : Nat
  waits : List Nat
  result : Except ReqError (Option String)

/-- Recursive core of _request: attempt is the current index of the Python
for-loop, remaining the number of loop iterations left (initially
_retries).  On a transient result the loop sleeps 2 ^ attempt seconds and
continues unless this was the final iteration, in which case the last
exception is re-raised. -/
def requestGo (oracle : Nat → NetOutcome) (attempt remaining : Nat) (waits : List Nat) :
    ReqTrace :=
  match remaining with
  | 0 => { attempts := attempt, waits := waits, result := .error (.apiError none) }
  | r + 1 =>
    match classifyAttempt (oracle attempt) with
    | .ok d => { attempts := attempt + 1, waits := waits, result := .ok d }
    | .fatal m => { attempts := attempt + 1, waits := waits, result := .error (.apiError m) }
    | .transient st e =>
      match r with
      | 0 => { attempts := attempt + 1, waits := waits, result := .error (.transient st e) }
      | r2 + 1 => requestGo oracle (attempt + 1) (r2 + 1) (waits ++ [2 ^ attempt])

/-- Embedding of USGSClient._request with its default retry budget of 5. -/
def request (oracle : Nat → NetOutcome) : ReqTrace :=
  requestGo oracle 0 5 []

/-! USGSClient.search_all_scenes, the resumable backfill seeder.  The
remote catalog is an oracle from startingNumber to the returned page. -/

/-- Batch size of the scene-search pagination (10 000 records). -/
def batch_size : Nat := 10000

/-- Flush threshold constant of search_all_scenes (flush_every = 5). -/
def flush_every : Nat := 5

/-- Persistence events of one seeder run, in order: a mid-walk flush
(add_scenes of the buffer followed by save_seed_cursor), the final flush of
a leftover buffer, and the closing clear_seed_cursor. -/
inductive SeedEvent
  | flush (count : Nat) (savedCursor : Nat)
  | finalFlush (count : Nat)
  | clearCursor
deriving DecidableEq

/-- Result of a seeder run: the store, the added_total return value, the
persistence events, the next startingNumber, and whether the walk reached
its natural end (fuel did not run out). -/
structure SeedOut where
  db : Database
  added : Nat
  events : List SeedEvent
  nextStart : Nat
  completed : Bool
deriving DecidableEq

/-- Code after the while loop of search_all_scenes: final flush of a
non-empty buffer, then clear_seed_cursor. -/
def seedFinish (dataset : String) (pending : List Scene) (db : Database) (added : Nat)
    (events : List SeedEvent) (startN : Nat) : SeedOut :=
  let step :=
    if pending.isEmpty then (db, added, events)
    else
      (db.add_scenes pending dataset false, added + pending.length,
        events ++ [SeedEvent.finalFlush pending.length])
  { db := step.1.clear_seed_cursor dataset
    added := step.2.1
    events := step.2.2 ++ [SeedEvent.clearCursor]
    nextStart := startN
    completed := true }

/-- Filter applied to each fetched page: keep scenes with a truthy entityId
that is in neither exclusion set (known_ids, available_ids). -/
def seedKeep (known avail : String → Bool) (scenes : List Scene) : List Scene :=
  scenes.filter (fun s => s.entityId ≠ "" ∧ known s.entityId = false ∧ avail s.entityId = false)

/-- While loop of search_all_scenes, fuelled by a bound on the number of
pages fetched.  Each iteration fetches the page at starting_number,
buffers its unscanned scenes, advances the position, flushes buffer and
cursor when the buffer holds at least flush_every * batch_size scenes, and
stops after a short page. -/
def seedLoop (remote : Nat → List Scene) (dataset : String) (known avail : String → Bool) :
    Nat → Nat → List Scene → Database → Nat → List SeedEvent → SeedOut
  | 0, starting_number, _pending, db, added, events =>
    { db := db, added := added, events := events, nextStart := starting_number,
      completed := false }
  | fuel + 1, starting_number, pending, db, added, events =>
    let scenes := remote starting_number
    if scenes.isEmpty then
      seedFinish dataset pending db added events starting_number
    else
      let pending2 := pending ++ seedKeep known avail scenes
      let nextNumber := starting_number + batch_size
      let flushed :=
        if flush_every * batch_size ≤ pending2.length then
          (([] : List Scene),
            (db.add_scenes pending2 dataset false).save_seed_cursor dataset nextNumber,
            added + pending2.length,
            events ++ [SeedEvent.flush pending2.length nextNumber])
        else (pending2, db, added, events)
      if scenes.length < batch_size then
        seedFinish dataset flushed.1 flushed.2.1 flushed.2.2.1 flushed.2.2.2 nextNumber
      else
        seedLoop remote dataset known avail fuel nextNumber flushed.1 flushed.2.1
          flushed.2.2.1 flushed.2.2.2

/-- Embedding of USGSClient.search_all_scenes: the walk starts at the
persisted cursor (defaulting to 1) with an empty buffer. -/
def search_all_scenes (remote : Nat → List Scene) (dataset : String) (db : Database)
    (known avail : String → Bool) (fuel : Nat) : SeedOut :=
  seedLoop remote dataset known avail fuel (db.get_seed_cursor dataset) [] db 0 []

/-! Reconciliation: the per-dataset body of the run_monitor loop
(monitor.py lines 1120-1147), for a run on an already seeded store.  The
fetched available_scenes list stands for the fully paginated result of
client.search_dataset. -/

/-- Embedding of the per-dataset reconciliation: classify the fetched
available scenes against the store, persist brand-new scenes with
available = 1, and flip previously unscanned fetched scenes to available.
Returns the updated store, the new_scenes list and the newly_scanned id
list.  available_ids is the Python set comprehension over the fetched
entity ids, modelled as the deduplicated id list. -/
def reconcileDataset (db : Database) (dataset : String) (available_scenes : List Scene) :
    Database × List Scene × List String :=
  let known_ids := db.get_known_entity_ids dataset
  let available_ids := (available_scenes.map Scene.entityId).dedup
  let new_scenes := available_scenes.filter (fun s => s.entityId ∉ known_ids)
  let db1 := if new_scenes.isEmpty then db else db.add_scenes new_scenes dataset true
  let newly_scanned := available_ids.filter (fun eid => eid ∈ db1.get_unavailable_ids dataset)
  let db2 := if newly_scanned.isEmpty then db1 else db1.mark_available newly_scanned
  (db2, new_scenes, newly_scanned)

/-- Errors that abort a reconciliation cycle: the service-reported error
escalated by _request, or a transient error that survived the retry
budget. -/
inductive MonitorError
  | remoteService (message : Option String)
  | transientExhausted (status : Option Nat) (e : Option NetExc)
deriving DecidableEq

/-- Scene tagged with its dataset, as built by run_monitor when extending
new_scenes_total. -/
structure TaggedScene where
  scene : Scene
  dataset : String
deriving DecidableEq

/-- Dataset loop of run_monitor for a seeded store: datasets are processed
in order; a fetch failure propagates out of the loop at once (the loop
body has no exception handler), keeping the store effects of the earlier
datasets. -/
def monitorLoop (fetch : String → Except MonitorError (List Scene)) :
    List String → Database → List TaggedScene →
    Database × List TaggedScene × Option MonitorError
  | [], db, acc => (db, acc, none)
  | d :: rest, db, acc =>
    match fetch d with
    | .error e => (db, acc, some e)
    | .ok scenes =>
      let step := reconcileDataset db d scenes
      monitorLoop fetch rest step.1 (acc ++ step.2.1.map (fun s => ⟨s, d⟩))

/-! Notification dispatcher. -/

/-- The slice of config.json the dispatcher reads. -/
structure MonitorConfig where
  telegram_enabled : Bool
  telegram_has_creds : Bool
  max_individual_messages : Nat
  ntfy_enabled : Bool
  discord_enabled : Bool
deriving DecidableEq

/-- Per-call outcomes of the two photo-bearing Telegram endpoints, as seen
by send_telegram_scene through the boolean return values of
_send_telegram_media_group and _send_telegram_photo.  textOk records
whether the text-only send worked; _send_telegram_text swallows its own
failures, so that flag never influences control flow. -/
structure TgOutcome where
  mediaGroupOk : Bool
  photoOk : Bool
  textOk : Bool
deriving DecidableEq

/-- Delivery attempt levels of the per-scene fallback chain, recording for
the two photo levels the outcome and for the single-photo level the file
name of the image sent. -/
inductive Delivery
  | mediaGroup (ok : Bool)
  | singlePhoto (image : String) (ok : Bool)
  | textOnly (ok : Bool)
deriving DecidableEq

/-- Embedding of Notifier.send_telegram_scene.  media is the enrichment
image list (browse image and/or rendered map) that passed the validity
checks; the returned list is the trace of delivery attempts, and the Bool
is the Python return value.  All exceptions of the send helpers are caught
inside them, so the function always returns. -/
def send_telegram_scene (cfg : MonitorConfig) (w : TgOutcome) (media : List String) :
    List Delivery × Bool :=
  if cfg.telegram_enabled = false then ([], false)
  else if cfg.telegram_has_creds = false then ([], false)
  else
    let chain :=
      if 2 ≤ media.length then
        if w.mediaGroupOk then ([Delivery.mediaGroup true], true)
        else ([Delivery.mediaGroup false, Delivery.singlePhoto (media.headD "") w.photoOk],
          w.photoOk)
      else if media.length = 1 then
        ([Delivery.singlePhoto (media.headD "") w.photoOk], w.photoOk)
      else ([Delivery.textOnly w.textOk], true)
    if chain.2 then (chain.1, true)
    else (chain.1 ++ [Delivery.textOnly w.textOk], true)

/-- Observable notification actions of one run. -/
inductive Action
  | saveUrls (count : Nat)
  | telegramScene (entityId : String) (deliveries : List Delivery)
  | summaryNtfy (message : String)
  | summaryTelegramText (message : String)
  | summaryDiscord (message : String)
deriving DecidableEq

/-- Embedding of Notifier.send: the summary text goes to every enabled
channel, in the source order ntfy, telegram, discord. -/
def notifierSend (cfg : MonitorConfig) (message : String) : List Action :=
  (if cfg.ntfy_enabled then [Action.summaryNtfy message] else []) ++
    (if cfg.telegram_enabled then [Action.summaryTelegramText message] else []) ++
      (if cfg.discord_enabled then [Action.summaryDiscord message] else [])

/-- Grouping of format_notification: a Python dict keyed by dataset keeps
first-occurrence key order, each group keeping scene order. -/
def groupByDataset (scenes : List TaggedScene) : List (String × List TaggedScene) :=
  scenes.foldl (fun acc s =>
    if acc.any (fun g => g.1 = s.dataset) then
      acc.map (fun g => if g.1 = s.dataset then (g.1, g.2 ++ [s]) else g)
    else acc ++ [(s.dataset, [s])]) []

/-- Example line of the summary body for one scene. -/
def exampleLine (s : TaggedScene) : String :=
  let did := s.scene.displayId.getD s.scene.entityId
  let ad := (extract_acquisition_date s.scene).getD "Unknown date"
  "  ‚Ä¢ " ++ did ++ " (" ++ ad ++ ")"

/-- Block of summary lines for one dataset group: header with the group
size, up to three example lines, and the and-N-more suffix for larger
groups. -/
def datasetBlock (g : String × List TaggedScene) : List String :=
  ("\n<b>" ++ g.1 ++ "</b>: " ++ toString g.2.length ++ " scenes")
    :: ((g.2.take 3).map exampleLine
      ++ (if 3 < g.2.length then ["  ... and " ++ toString (g.2.length - 3) ++ " more"] else []))

/-- Embedding of format_notification: headline, optional link-count line,
then one block per dataset group, joined with newlines. -/
def format_notification (scenes : List TaggedScene) (url_count : Nat) : String :=
  let header := "üõ∞Ô∏è " ++ toString scenes.length ++ " new declassified scenes available!"
  let urlLine :=
    if 0 < url_count then
      ["üìã " ++ toString url_count ++ " metadata links saved to new_scenes.txt"]
    else []
  String.intercalate "\n" (header :: (urlLine ++ (groupByDataset scenes).flatMap datasetBlock))

/-- Embedding of the notification block of run_monitor (lines 1159-1189):
write the audit file, then either one rich Telegram message per scene (at
or below the threshold, Telegram enabled) or one summary per channel, and
finally mark every scene of the cycle notified.  w gives the Telegram
outcomes per entity id and enrich the per-scene enrichment images. -/
def dispatchNotifications (cfg : MonitorConfig) (w : String → TgOutcome)
    (enrich : String → List String) (db : Database) (new_scenes_total : List TaggedScene) :
    Database × List Action :=
  if new_scenes_total.isEmpty then (db, [])
  else
    let acts :=
      if cfg.telegram_enabled ∧ new_scenes_total.length ≤ cfg.max_individual_messages then
        new_scenes_total.map (fun t =>
          Action.telegramScene t.scene.entityId
            (send_telegram_scene cfg (w t.scene.entityId) (enrich t.scene.entityId)).1)
      else
        notifierSend cfg (format_notification new_scenes_total new_scenes_total.length)
    let db2 := db.mark_notified (new_scenes_total.map (fun t => t.scene.entityId))
    (db2, Action.saveUrls new_scenes_total.length :: acts)

/-! Concrete fixtures used to evaluate the pipeline at specific inputs. -/

/-- Scene fixture with entity id N (a never-seen record). -/
def sceneN : Scene := ⟨"N", none, none, none, none, none⟩

/-- Scene fixture with entity id U (a record stored as unscanned). -/
def sceneU : Scene := ⟨"U", none, none, none, none, none⟩

/-- Scene fixture with entity id X. -/
def sceneX : Scene := ⟨"X", none, none, none, none, none⟩

/-- Scene fixture with entity id Y. -/
def sceneY : Scene := ⟨"Y", none, none, none, none, none⟩

/-- Scene fixture with entity id K (a record already known to the store). -/
def sceneK : Scene := ⟨"K", none, none, none, none, none⟩

/-- Full remote page fixture: one unscanned scene followed by 9 999 known
scenes, so a page contributes a single buffered record to the seeder. -/
def fullPageK : List Scene := sceneN :: List.replicate 9999 sceneK

/-- Predicate on seeder events: a mid-walk flush carries at least
flush_every * batch_size buffered records. -/
def goodFlushEvent : SeedEvent → Bool
  | .flush n _ => 50000 ≤ n
  | _ => true

/-- Full remote page fixture of 10 000 unscanned scenes. -/
def fullPageN : List Scene := List.replicate 10000 sceneN

/-- Page oracle serving five full pages of unscanned scenes (positions 1,
10 001, 20 001, 30 001, 40 001) and the empty page afterwards, so a walk
from position 1 buffers exactly 50 000 records over five pages. -/
def pageOracleN : Nat → List Scene := fun start => if start ≤ 40001 then fullPageN else []

/-- Row fixture: unscanned placeholder of dataset corona2. -/
def rowU : SceneRow := ⟨"corona2", none, none, none, false, false, none, none⟩

/-- Row fixture: available scene recorded under dataset a. -/
def rowXa : SceneRow := ⟨"a", none, none, none, false, true, none, none⟩

/-- Row fixture: available scene of dataset corona2. -/
def rowAvail : SceneRow := ⟨"corona2", none, none, none, false, true, none, none⟩

/-- Store fixture holding one unscanned corona2 scene U. -/
def dbU : Database := ⟨[("U", rowU)], []⟩

/-- Store fixture holding scene X recorded under dataset a. -/
def dbX : Database := ⟨[("X", rowXa)], []⟩

/-- Store fixture holding one available corona2 scene X. -/
def dbAvail : Database := ⟨[("X", rowAvail)], []⟩

/-- Availability monotonicity relation between two store states: every
scene row selectable by primary key with available = 1 in the first state
is still selectable with available = 1 in the second. -/
def availPreserved (db db2 : Database) : Prop :=
  ∀ eid r, findRow db.scenes eid = some r → r.available = true →
    ∃ r2, findRow db2.scenes eid = some r2 ∧ r2.available = true

/-- Result of one run_monitor invocation on a seeded store. -/
structure MonitorResult where
  db : Database
  actions : List Action
  err : Option MonitorError
  logoutAttempted : Bool

/-- Embedding of run_monitor for a seeded store: login succeeded, the
dataset loop runs, on success the dispatcher fires, and the finally block
always attempts the logout. -/
def run_monitor (cfg : MonitorConfig) (w : String → TgOutcome) (enrich : String → List String)
    (fetch : String → Except MonitorError (List Scene)) (datasets : List String)
    (db : Database) : MonitorResult :=
  let loop := monitorLoop fetch datasets db []
  match loop.2.2 with
  | some e => { db := loop.1, actions := [], err := some e, logoutAttempted := true }
  | none =>
    let dispatched := dispatchNotifications cfg w enrich loop.1 loop.2.1
    { db := dispatched.1, actions := dispatched.2, err := none, logoutAttempted := true }

/-! Basic lemmas about the association-list primitives. -/

theorem findRow_append_of_some {β : Type} {rows extra : List (String × β)} {k : String}
    {r : β} (h : findRow rows k = some r) : findRow (rows ++ extra) k = some r := by
  induction rows with
  | nil => simp [findRow] at h
  | cons p rest ih =>
    rw [findRow] at h
    by_cases hk : p.1 = k
    · simpa [findRow, hk] using h
    · rw [List.cons_append, findRow, if_neg hk]
      exact ih (by simpa [hk] using h)

theorem findRow_append_of_none {β : Type} {rows : List (String × β)} {k : String}
    (extra : List (String × β)) (h : findRow rows k = none) :
    findRow (rows ++ extra) k = findRow extra k := by
  induction rows with
  | nil => simp
  | cons p rest ih =>
    rw [findRow] at h
    by_cases hk : p.1 = k
    · simp [hk] at h
    · rw [List.cons_append, findRow, if_neg hk]
      exact ih (by simpa [hk] using h)

theorem findRow_isSome_append {β : Type} {rows : List (String × β)} {k : String}
    (extra : List (String × β)) (h : (findRow rows k).isSome = true) :
    (findRow (rows ++ extra) k).isSome = true := by
  obtain ⟨r, hr⟩ := Option.isSome_iff_exists.mp h
  rw [findRow_append_of_some hr]
  rfl

theorem findRow_some_mem {β : Type} {rows : List (String × β)} {k : String} {r : β}
    (h : findRow rows k = some r) : (k, r) ∈ rows := by
  induction rows with
  | nil => simp [findRow] at h
  | cons p rest ih =>
    rw [findRow] at h
    by_cases hk : p.1 = k
    · rw [if_pos hk] at h
      have hp : p = (k, r) := by
        obtain ⟨a, b⟩ := p
        simp only [Option.some.injEq] at h
        simp only at hk
        simp [hk, h]
      rw [hp]
      exact List.mem_cons_self _ _
    · exact List.mem_cons_of_mem _ (ih (by simpa [hk] using h))

theorem findRow_eq_none_of_not_mem {β : Type} {rows : List (String × β)} {k : String}
    (h : ∀ r : β, (k, r) ∉ rows) : findRow rows k = none := by
  induction rows with
  | nil => rfl
  | cons p rest ih =>
    rw [findRow]
    by_cases hk : p.1 = k
    · exact absurd (by simp [← hk]) (h p.2)
    · exact if_neg hk |>.symm ▸ ih (fun r hr => h r (List.mem_cons_of_mem _ hr))

theorem mem_of_findRow_none {β : Type} {rows : List (String × β)} {k : String}
    (h : findRow rows k = none) : ∀ r : β, (k, r) ∉ rows := by
  intro r hr
  induction rows with
  | nil => simp at hr
  | cons p rest ih =>
    rw [findRow] at h
    by_cases hk : p.1 = k
    · simp [hk] at h
    · rcases List.mem_cons.mp hr with hEq | hmem
      · exact hk (by simp [← hEq])
      · exact ih (by simpa [hk] using h) hmem

/-! Decimal rendering round trip: Python int(str(n)) = n, in terms of
Nat.repr and String.toNat!. -/

theorem toDigitsCore_append_arg (b : Nat) :
    ∀ (fuel n : Nat) (ds : List Char),
      Nat.toDigitsCore b fuel n ds = Nat.toDigitsCore b fuel n [] ++ ds := by
  intro fuel
  induction fuel with
  | zero => intro n ds; simp [Nat.toDigitsCore]
  | succ fuel ih =>
    intro n ds
    rw [Nat.toDigitsCore, Nat.toDigitsCore]
    by_cases h0 : n / b = 0
    · simp [h0]
    · rw [if_neg h0, if_neg h0, ih (n / b) [Nat.digitChar (n % b)],
        ih (n / b) (Nat.digitChar (n % b) :: ds)]
      simp

theorem digitChar_spec (m : Nat) (h : m < 10) :
    (Nat.digitChar m).isDigit = true ∧ (Nat.digitChar m).toNat - Char.toNat '0' = m := by
  interval_cases m <;> exact ⟨by decide, by decide⟩

theorem toDigits_fold (fuel : Nat) : ∀ n acc : Nat, n < fuel →
    (Nat.toDigitsCore 10 fuel n []).foldl
        (fun a c => a * 10 + (c.toNat - Char.toNat '0')) acc
      = acc * 10 ^ (Nat.toDigitsCore 10 fuel n []).length + n ∧
    (∀ c ∈ Nat.toDigitsCore 10 fuel n [], c.isDigit = true) ∧
    Nat.toDigitsCore 10 fuel n [] ≠ [] := by
  induction fuel with
  | zero => intro n acc h; omega
  | succ fuel ih =>
    intro n acc h
    rw [Nat.toDigitsCore]
    by_cases h0 : n / 10 = 0
    · have hn10 : n < 10 := by omega
      have hmod : n % 10 = n := Nat.mod_eq_of_lt hn10
      obtain ⟨hd, hv⟩ := digitChar_spec (n % 10) (Nat.mod_lt n (by omega))
      refine ⟨?_, ?_, ?_⟩
      · simp only [if_pos h0, List.foldl, List.length]
        rw [hv, hmod]
        ring
      · intro c hc
        simp only [if_pos h0, List.mem_singleton] at hc
        exact hc ▸ hd
      · simp [h0]
    · have hne0 : n ≠ 0 := fun hn => h0 (by simp [hn])
      have hdiv : n / 10 < n := Nat.div_lt_self (Nat.pos_of_ne_zero hne0) (by omega)
      have hdivf : n / 10 < fuel := by omega
      obtain ⟨ihf, ihd, ihne⟩ := ih (n / 10) acc hdivf
      obtain ⟨hd, hv⟩ := digitChar_spec (n % 10) (Nat.mod_lt n (by omega))
      rw [if_neg h0, toDigitsCore_append_arg]
      refine ⟨?_, ?_, ?_⟩
      · rw [List.foldl_append, ihf, List.length_append]
        simp only [List.foldl, List.length]
        rw [hv, pow_succ]
        have hnm : 10 * (n / 10) + n % 10 = n := Nat.div_add_mod n 10
        ring_nf
        omega
      · intro c hc
        rcases List.mem_append.mp hc with hc1 | hc2
        · exact ihd c hc1
        · simp only [List.mem_singleton] at hc2
          exact hc2 ▸ hd
      · simp

theorem toNat!_repr (n : Nat) : (Nat.repr n).toNat! = n := by
  obtain ⟨hfold, hdig, hne⟩ := toDigits_fold (n + 1) n 0 (Nat.lt_succ_self n)
  have hrepr : Nat.repr n = ⟨Nat.toDigitsCore 10 (n + 1) n []⟩ := rfl
  rw [hrepr]
  have hdata : (⟨Nat.toDigitsCore 10 (n + 1) n []⟩ : String).data
      = Nat.toDigitsCore 10 (n + 1) n [] := rfl
  have hNat : (⟨Nat.toDigitsCore 10 (n + 1) n []⟩ : String).isNat = true := by
    rw [String.isNat]
    refine (Bool.and_eq_true _ _).mpr ⟨?_, ?_⟩
    · rw [Bool.not_eq_true']
      by_contra hx
      have : (⟨Nat.toDigitsCore 10 (n + 1) n []⟩ : String) = "" :=
        (String.isEmpty_iff _).mp (Bool.not_eq_false _ ▸ hx)
      exact hne (congrArg String.data this)
    · rw [String.all_eq, hdata, List.all_eq_true]
      exact hdig
  rw [String.toNat!, if_pos hNat, String.foldl_eq, hdata, hfold]
  simp

theorem findRow_replace_self {β : Type} {m : List (String × β)} {k : String} (v : β)
    (h : (findRow m k).isSome = true) :
    findRow (m.map (fun p => if p.1 = k then (k, v) else p)) k = some v := by
  induction m with
  | nil => simp [findRow] at h
  | cons p rest ih =>
    by_cases hk : p.1 = k
    · simp [findRow, hk]
    · rw [findRow, if_neg hk] at h
      simpa [findRow, hk] using ih h

theorem findRow_replace_other {β : Type} {m : List (String × β)} {k k2 : String} (v : β)
    (hne : k2 ≠ k) :
    findRow (m.map (fun p => if p.1 = k then (k, v) else p)) k2 = findRow m k2 := by
  have hk2 : ¬ k = k2 := fun hx => hne hx.symm
  induction m with
  | nil => rfl
  | cons p rest ih =>
    rw [List.map_cons]
    by_cases hk : p.1 = k
    · have hp2 : ¬ p.1 = k2 := fun hx => hne (hx ▸ hk)
      rw [if_pos hk, findRow, findRow, if_neg hp2]
      show (if k = k2 then some v
          else findRow (rest.map fun p => if p.1 = k then (k, v) else p) k2) = findRow rest k2
      rw [if_neg hk2]
      exact ih
    · rw [if_neg hk, findRow, findRow]
      by_cases hp2 : p.1 = k2
      · rw [if_pos hp2, if_pos hp2]
      · rw [if_neg hp2, if_neg hp2]
        exact ih

theorem findRow_metaInsertOrReplace_self (m : List (String × String)) (k v : String) :
    findRow (metaInsertOrReplace m k v) k = some v := by
  rw [metaInsertOrReplace]
  by_cases hs : (findRow m k).isSome = true
  · rw [if_pos hs]
    exact findRow_replace_self v hs
  · rw [if_neg hs]
    have hnone : findRow m k = none := by
      cases hfr : findRow m k with
      | none => rfl
      | some v2 => exact absurd (by rw [hfr]; rfl) hs
    rw [findRow_append_of_none _ hnone, findRow, if_pos rfl]

theorem findRow_metaInsertOrReplace_other (m : List (String × String)) (k v k2 : String)
    (hne : k2 ≠ k) : findRow (metaInsertOrReplace m k v) k2 = findRow m k2 := by
  rw [metaInsertOrReplace]
  by_cases hs : (findRow m k).isSome = true
  · rw [if_pos hs]
    exact findRow_replace_other v hne
  · rw [if_neg hs]
    cases hfr : findRow m k2 with
    | none => rw [findRow_append_of_none _ hfr, findRow, if_neg (fun hx => hne hx.symm)]; rfl
    | some v2 => exact findRow_append_of_some hfr

theorem findRow_filter_ne_self {β : Type} (m : List (String × β)) (k : String) :
    findRow (m.filter (fun p => p.1 ≠ k)) k = none := by
  induction m with
  | nil => rfl
  | cons p rest ih =>
    by_cases hk : p.1 = k
    · simpa [List.filter, hk] using ih
    · simpa [List.filter, findRow, hk] using ih

theorem findRow_filter_ne_other {β : Type} (m : List (String × β)) (k k2 : String)
    (hne : k2 ≠ k) : findRow (m.filter (fun p => p.1 ≠ k)) k2 = findRow m k2 := by
  induction m with
  | nil => rfl
  | cons p rest ih =>
    rw [findRow]
    by_cases hk : p.1 = k
    · have hp2 : ¬ p.1 = k2 := fun hx => hne (hx ▸ hk)
      rw [if_neg hp2, List.filter_cons_of_neg (by simpa using hk)]
      exact ih
    · rw [List.filter_cons_of_pos (by simpa using hk), findRow]
      by_cases hp2 : p.1 = k2
      · rw [if_pos hp2, if_pos hp2]
      · rw [if_neg hp2, if_neg hp2]
        exact ih

theorem get_seed_cursor_save (db : Database) (d : String) (n : Nat) :
    (db.save_seed_cursor d n).get_seed_cursor d = n := by
  rw [Database.save_seed_cursor, Database.get_seed_cursor]
  show (match findRow (metaInsertOrReplace db.meta (seedCursorKey d) (toString n))
      (seedCursorKey d) with
    | some v => v.toNat!
    | none => 1) = n
  rw [findRow_metaInsertOrReplace_self]
  exact toNat!_repr n

theorem get_seed_cursor_clear (db : Database) (d : String) :
    (db.clear_seed_cursor d).get_seed_cursor d = 1 := by
  rw [Database.clear_seed_cursor, Database.get_seed_cursor]
  show (match findRow (db.meta.filter (fun p => decide (p.1 ≠ seedCursorKey d)))
      (seedCursorKey d) with
    | some v => v.toNat!
    | none => 1) = 1
  rw [show (fun p : String × String => decide (p.1 ≠ seedCursorKey d))
      = (fun p : String × String => p.1 ≠ seedCursorKey d) from rfl]
  rw [findRow_filter_ne_self]

theorem seedCursorKey_inj {d1 d2 : String} (h : seedCursorKey d1 = seedCursorKey d2) :
    d1 = d2 := by
  have hdata : ("seed_cursor_" ++ d1).data = ("seed_cursor_" ++ d2).data :=
    congrArg String.data h
  rw [String.data_append, String.data_append] at hdata
  have hd : d1.data = d2.data := List.append_cancel_left hdata
  cases d1
  cases d2
  exact congrArg String.mk (by simpa using hd)

theorem get_seed_cursor_save_other (db : Database) (d d2 : String) (n : Nat) (hne : d2 ≠ d) :
    (db.save_seed_cursor d n).get_seed_cursor d2 = db.get_seed_cursor d2 := by
  have hkey : seedCursorKey d2 ≠ seedCursorKey d := fun hx => hne (seedCursorKey_inj hx)
  rw [Database.save_seed_cursor, Database.get_seed_cursor, Database.get_seed_cursor]
  show (match findRow (metaInsertOrReplace db.meta (seedCursorKey d) (toString n))
      (seedCursorKey d2) with
    | some v => v.toNat!
    | none => 1) =
    (match findRow db.meta (seedCursorKey d2) with
    | some v => v.toNat!
    | none => 1)
  rw [findRow_metaInsertOrReplace_other _ _ _ _ hkey]

theorem get_seed_cursor_clear_other (db : Database) (d d2 : String) (hne : d2 ≠ d) :
    (db.clear_seed_cursor d).get_seed_cursor d2 = db.get_seed_cursor d2 := by
  have hkey : seedCursorKey d2 ≠ seedCursorKey d := fun hx => hne (seedCursorKey_inj hx)
  rw [Database.clear_seed_cursor, Database.get_seed_cursor, Database.get_seed_cursor]
  show (match findRow (db.meta.filter (fun p => decide (p.1 ≠ seedCursorKey d)))
      (seedCursorKey d2) with
    | some v => v.toNat!
    | none => 1) =
    (match findRow db.meta (seedCursorKey d2) with
    | some v => v.toNat!
    | none => 1)
  rw [show (fun p : String × String => decide (p.1 ≠ seedCursorKey d))
      = (fun p : String × String => p.1 ≠ seedCursorKey d) from rfl]
  rw [findRow_filter_ne_other _ _ _ hkey]

/-- C10: saveSeedCursor followed by getSeedCursor returns exactly the saved
position; clearSeedCursor resets getSeedCursor to the default 1; and both
operations on one dataset leave the cursor of every other dataset
unchanged. -/
theorem C10_seed_cursor_ops (db : Database) (d d2 : String) (n : Nat) (hne : d2 ≠ d) :
    (db.save_seed_cursor d n).get_seed_cursor d = n ∧
    (db.clear_seed_cursor d).get_seed_cursor d = 1 ∧
    (db.save_seed_cursor d n).get_seed_cursor d2 = db.get_seed_cursor d2 ∧
    (db.clear_seed_cursor d).get_seed_cursor d2 = db.get_seed_cursor d2 :=
  ⟨get_seed_cursor_save db d n, get_seed_cursor_clear db d,
    get_seed_cursor_save_other db d d2 n hne, get_seed_cursor_clear_other db d d2 hne⟩

theorem C10_seed_cursor_ops_witness :
    ((Database.mk [] []).save_seed_cursor "corona2" 42).get_seed_cursor "corona2" = 42 ∧
    ((Database.mk [] []).clear_seed_cursor "corona2").get_seed_cursor "corona2" = 1 ∧
    ((Database.mk [] []).save_seed_cursor "corona2" 42).get_seed_cursor "declassii"
      = (Database.mk [] []).get_seed_cursor "declassii" ∧
    ((Database.mk [] []).clear_seed_cursor "corona2").get_seed_cursor "declassii"
      = (Database.mk [] []).get_seed_cursor "declassii" :=
  C10_seed_cursor_ops (Database.mk [] []) "corona2" "declassii" 42 (by decide)

/-! The _request retry loop. -/

theorem requestGo_transient_step (oracle : Nat → NetOutcome) (attempt r2 : Nat)
    (waits : List Nat) (st : Option Nat) (e : Option NetExc)
    (h : classifyAttempt (oracle attempt) = .transient st e) :
    requestGo oracle attempt (r2 + 2) waits
      = requestGo oracle (attempt + 1) (r2 + 1) (waits ++ [2 ^ attempt]) := by
  rw [requestGo, h]

theorem requestGo_transient_last (oracle : Nat → NetOutcome) (attempt : Nat)
    (waits : List Nat) (st : Option Nat) (e : Option NetExc)
    (h : classifyAttempt (oracle attempt) = .transient st e) :
    requestGo oracle attempt 1 waits
      = { attempts := attempt + 1, waits := waits, result := .error (.transient st e) } := by
  rw [requestGo, h]

/-- C3 (amended): a call whose attempts all hit transient errors is retried
up to the fixed bound of 5 attempts with exponential backoff, the waits
between consecutive attempts being 1, 2, 4 and 8 seconds (four waits for
five attempts; no wait follows the final failure), and the error of the
last attempt is surfaced to the caller. -/
theorem C3_transient_retry (oracle : Nat → NetOutcome)
    (h : ∀ i, i < 5 → ∃ st e, classifyAttempt (oracle i) = .transient st e) :
    (request oracle).attempts = 5 ∧ (request oracle).waits = [1, 2, 4, 8] ∧
      ∃ st e, classifyAttempt (oracle 4) = .transient st e ∧
        (request oracle).result = .error (.transient st e) := by
  obtain ⟨s0, e0, h0⟩ := h 0 (by omega)
  obtain ⟨s1, e1, h1⟩ := h 1 (by omega)
  obtain ⟨s2, e2, h2⟩ := h 2 (by omega)
  obtain ⟨s3, e3, h3⟩ := h 3 (by omega)
  obtain ⟨s4, e4, h4⟩ := h 4 (by omega)
  have hfin : request oracle
      = { attempts := 5, waits := ((([] ++ [2 ^ 0]) ++ [2 ^ 1]) ++ [2 ^ 2]) ++ [2 ^ 3],
          result := .error (.transient s4 e4) } :=
    calc request oracle = requestGo oracle 0 5 [] := rfl
      _ = requestGo oracle 1 4 ([] ++ [2 ^ 0]) :=
        requestGo_transient_step oracle 0 3 [] s0 e0 h0
      _ = requestGo oracle 2 3 (([] ++ [2 ^ 0]) ++ [2 ^ 1]) :=
        requestGo_transient_step oracle 1 2 _ s1 e1 h1
      _ = requestGo oracle 3 2 ((([] ++ [2 ^ 0]) ++ [2 ^ 1]) ++ [2 ^ 2]) :=
        requestGo_transient_step oracle 2 1 _ s2 e2 h2
      _ = requestGo oracle 4 1 (((([] ++ [2 ^ 0]) ++ [2 ^ 1]) ++ [2 ^ 2]) ++ [2 ^ 3]) :=
        requestGo_transient_step oracle 3 0 _ s3 e3 h3
      _ = _ := requestGo_transient_last oracle 4 _ s4 e4 h4
  rw [hfin]
  exact ⟨rfl, rfl, s4, e4, h4, rfl⟩

theorem C3_transient_retry_witness :
    (request (fun i => if i < 4 then NetOutcome.exc NetExc.connectionError
        else NetOutcome.exc NetExc.timeout)).attempts = 5 ∧
      (request (fun i => if i < 4 then NetOutcome.exc NetExc.connectionError
        else NetOutcome.exc NetExc.timeout)).waits = [1, 2, 4, 8] ∧
      ∃ st e, classifyAttempt ((fun i => if i < 4 then NetOutcome.exc NetExc.connectionError
          else NetOutcome.exc NetExc.timeout) 4) = .transient st e ∧
        (request (fun i => if i < 4 then NetOutcome.exc NetExc.connectionError
          else NetOutcome.exc NetExc.timeout)).result = .error (.transient st e) :=
  C3_transient_retry _ (fun i _ => by
    by_cases hc : i < 4
    · exact ⟨none, some NetExc.connectionError, by simp [hc, classifyAttempt]⟩
    · exact ⟨none, some NetExc.timeout, by simp [hc, classifyAttempt]⟩)

/-- C3 counterexample: with every attempt timing out, the retry loop sleeps
1, 2, 4 and 8 seconds, never 16 seconds: the wait schedule is not the
claimed 1, 2, 4, 8, 16. -/
theorem C3_waits_counterexample :
    (request (fun _ => NetOutcome.exc NetExc.timeout)).waits = [1, 2, 4, 8] ∧
      (request (fun _ => NetOutcome.exc NetExc.timeout)).waits ≠ [1, 2, 4, 8, 16] := by
  exact ⟨by decide, by decide⟩

/-- C4: evaluation at the failing input.  A response with HTTP status 401
(an authentication failure, a 4xx other than rate-limit) raises an
HTTPError via raise_for_status, which the except clause of _request
catches: the call is retried through all 5 attempts with backoff instead
of failing immediately.  A service-reported errorCode, in contrast, does
fail on the first attempt with no retry. -/
theorem C4_http_4xx_retried :
    (request (fun _ => NetOutcome.response 401 none none none)).attempts = 5 ∧
      (request (fun _ => NetOutcome.response 401 none none none)).waits = [1, 2, 4, 8] ∧
      (request (fun _ => NetOutcome.response 401 none none none)).result
        = .error (.transient (some 401) none) ∧
      (request (fun _ => NetOutcome.response 200 (some "AUTH_INVALID")
        (some "auth failed") none)).attempts = 1 ∧
      (request (fun _ => NetOutcome.response 200 (some "AUTH_INVALID")
        (some "auth failed") none)).result = .error (.apiError (some "auth failed")) := by
  exact ⟨by decide, by decide, rfl, by decide, rfl⟩

/-! Structure of the store operations. -/

theorem addFold_nil (d : String) (a : Bool) (rows : List (String × SceneRow)) :
    addFold d a [] rows = rows := rfl

theorem addFold_prefix (d : String) (a : Bool) :
    ∀ (ss : List Scene) (rows : List (String × SceneRow)),
      ∃ extra, addFold d a ss rows = rows ++ extra ∧
        ∀ p ∈ extra, ∃ s ∈ ss, p = (s.entityId, mkRow s d a) := by
  intro ss
  induction ss with
  | nil => exact fun rows => ⟨[], by simp [addFold]⟩
  | cons s rest ih =>
    intro rows
    have hfold : addFold d a (s :: rest) rows = addFold d a rest (insertOrIgnore rows s d a) :=
      rfl
    rw [insertOrIgnore] at hfold
    by_cases hs : (findRow rows s.entityId).isSome = true
    · rw [if_pos hs] at hfold
      obtain ⟨extra, heq, hmem⟩ := ih rows
      exact ⟨extra, hfold ▸ heq, fun p hp =>
        (hmem p hp).elim (fun s2 hs2 => ⟨s2, List.mem_cons_of_mem _ hs2.1, hs2.2⟩)⟩
    · rw [if_neg hs] at hfold
      obtain ⟨extra, heq, hmem⟩ := ih (rows ++ [(s.entityId, mkRow s d a)])
      refine ⟨(s.entityId, mkRow s d a) :: extra, ?_, ?_⟩
      · rw [hfold, heq, List.append_assoc]
        rfl
      · intro p hp
        rcases List.mem_cons.mp hp with hEq | hmem2
        · exact ⟨s, List.mem_cons_self _ _, hEq⟩
        · obtain ⟨s2, hs2, hp2⟩ := hmem p hmem2
          exact ⟨s2, List.mem_cons_of_mem _ hs2, hp2⟩

theorem findRow_addFold_of_some (d : String) (a : Bool) (ss : List Scene)
    {rows : List (String × SceneRow)} {k : String} {r : SceneRow}
    (h : findRow rows k = some r) : findRow (addFold d a ss rows) k = some r := by
  obtain ⟨extra, heq, _⟩ := addFold_prefix d a ss rows
  rw [heq]
  exact findRow_append_of_some h

theorem findRow_addFold_isSome (d : String) (a : Bool) :
    ∀ (ss : List Scene) (rows : List (String × SceneRow)) (s : Scene), s ∈ ss →
      (findRow (addFold d a ss rows) s.entityId).isSome = true := by
  intro ss
  induction ss with
  | nil => intro rows s hs; simp at hs
  | cons s0 rest ih =>
    intro rows s hs
    have hfold : addFold d a (s0 :: rest) rows = addFold d a rest (insertOrIgnore rows s0 d a) :=
      rfl
    rw [hfold]
    rcases List.mem_cons.mp hs with hEq | hmem
    · subst hEq
      have hbase : (findRow (insertOrIgnore rows s d a) s.entityId).isSome = true := by
        rw [insertOrIgnore]
        by_cases hsr : (findRow rows s.entityId).isSome = true
        · rwa [if_pos hsr]
        · rw [if_neg hsr]
          have hnone : findRow rows s.entityId = none := by
            cases hfr : findRow rows s.entityId with
            | none => rfl
            | some v => exact absurd (by rw [hfr]; rfl) hsr
          rw [findRow_append_of_none _ hnone, findRow, if_pos rfl]
          rfl
      obtain ⟨r, hr⟩ := Option.isSome_iff_exists.mp hbase
      rw [findRow_addFold_of_some d a rest hr]
      rfl
    · exact ih _ s hmem

theorem mem_known_iff {db : Database} {d eid : String} :
    eid ∈ db.get_known_entity_ids d ↔ ∃ r, (eid, r) ∈ db.scenes ∧ r.dataset = d := by
  simp only [Database.get_known_entity_ids, List.mem_map, List.mem_filter, decide_eq_true_eq]
  constructor
  · rintro ⟨p, ⟨hmem, hds⟩, hfst⟩
    refine ⟨p.2, ?_, hds⟩
    have hp : (eid, p.2) = p := by rw [← hfst]
    rw [hp]
    exact hmem
  · rintro ⟨r, hmem, hds⟩
    exact ⟨(eid, r), ⟨hmem, hds⟩, rfl⟩

theorem mem_unavailable_iff {db : Database} {d eid : String} :
    eid ∈ db.get_unavailable_ids d ↔
      ∃ r, (eid, r) ∈ db.scenes ∧ r.dataset = d ∧ r.available = false := by
  simp only [Database.get_unavailable_ids, List.mem_map, List.mem_filter, decide_eq_true_eq]
  constructor
  · rintro ⟨p, ⟨hmem, hds⟩, hfst⟩
    refine ⟨p.2, ?_, hds⟩
    have hp : (eid, p.2) = p := by rw [← hfst]
    rw [hp]
    exact hmem
  · rintro ⟨r, hmem, hds⟩
    exact ⟨(eid, r), ⟨hmem, hds⟩, rfl⟩

theorem mem_updateRows {rows : List (String × SceneRow)} {ids : List String}
    {f : SceneRow → SceneRow} {k : String} {r2 : SceneRow} :
    (k, r2) ∈ updateRows rows ids f ↔
      ∃ r, (k, r) ∈ rows ∧ r2 = (if k ∈ ids then f r else r) := by
  rw [updateRows, List.mem_map]
  constructor
  · rintro ⟨p, hmem, hEq⟩
    by_cases hin : p.1 ∈ ids
    · rw [if_pos hin] at hEq
      obtain ⟨hk, hr⟩ := Prod.mk.injEq _ _ _ _ ▸ hEq
      refine ⟨p.2, ?_, ?_⟩
      · have hp : (k, p.2) = p := by rw [← hk]
        rw [hp]
        exact hmem
      · rw [if_pos (hk ▸ hin), ← hr]
    · rw [if_neg hin] at hEq
      have hk : p.1 = k := congrArg Prod.fst hEq
      refine ⟨p.2, ?_, ?_⟩
      · have hp : (k, p.2) = p := by rw [← hk]
        rw [hp]
        exact hmem
      · rw [if_neg (hk ▸ hin)]
        exact (congrArg Prod.snd hEq).symm
  · rintro ⟨r, hmem, hEq⟩
    refine ⟨(k, r), hmem, ?_⟩
    by_cases hin : k ∈ ids
    · rw [if_pos hin] at hEq ⊢
      rw [hEq]
    · rw [if_neg hin] at hEq ⊢
      rw [hEq]

theorem findRow_updateRows (rows : List (String × SceneRow)) (ids : List String)
    (f : SceneRow → SceneRow) (k : String) :
    findRow (updateRows rows ids f) k
      = (findRow rows k).map (fun r => if k ∈ ids then f r else r) := by
  induction rows with
  | nil => rfl
  | cons p rest ih =>
    rw [updateRows, List.map_cons, findRow]
    by_cases hk : p.1 = k
    · by_cases hin : p.1 ∈ ids
      · rw [if_pos hin]
        show (if p.1 = k then some (f p.2) else _) = _
        rw [if_pos hk, findRow, if_pos hk]
        show some (f p.2) = Option.map (fun r => if k ∈ ids then f r else r) (some p.2)
        rw [Option.map_some', ← hk, if_pos hin]
      · rw [if_neg hin]
        show (if p.1 = k then some p.2 else _) = _
        rw [if_pos hk, findRow, if_pos hk]
        show some p.2 = Option.map (fun r => if k ∈ ids then f r else r) (some p.2)
        rw [Option.map_some', ← hk, if_neg hin]
    · have hstep : (if p.1 ∈ ids then (p.1, f p.2) else p).1 = p.1 := by
        by_cases hin : p.1 ∈ ids
        · rw [if_pos hin]
        · rw [if_neg hin]
      show (if (if p.1 ∈ ids then (p.1, f p.2) else p).1 = k then _ else _) = _
      rw [findRow, if_neg hk]
      by_cases hin : p.1 ∈ ids
      · rw [if_pos hin]
        show (if p.1 = k then _ else _) = _
        rw [if_neg hk]
        exact ih
      · rw [if_neg hin, if_neg hk]
        exact ih

theorem updateRows_nil_ids (rows : List (String × SceneRow)) (f : SceneRow → SceneRow) :
    updateRows rows [] f = rows := by
  induction rows with
  | nil => rfl
  | cons p rest ih =>
    rw [updateRows, List.map_cons, if_neg (List.not_mem_nil p.1)]
    rw [updateRows] at ih
    rw [ih]

theorem mark_available_scenes (db : Database) (ids : List String) :
    (db.mark_available ids).scenes
      = updateRows db.scenes ids (fun r => { r with available := true }) := by
  rw [Database.mark_available]
  by_cases h : ids = []
  · rw [if_pos h, h, updateRows_nil_ids]
  · rw [if_neg h]

theorem mark_available_meta (db : Database) (ids : List String) :
    (db.mark_available ids).meta = db.meta := by
  rw [Database.mark_available]
  by_cases h : ids = []
  · rw [if_pos h]
  · rw [if_neg h]

theorem mark_notified_scenes (db : Database) (ids : List String) :
    (db.mark_notified ids).scenes
      = updateRows db.scenes ids (fun r => { r with notified := true }) := rfl

theorem add_scenes_nil (db : Database) (d : String) (a : Bool) :
    db.add_scenes [] d a = db := rfl

theorem mark_available_nil (db : Database) : db.mark_available [] = db := rfl

theorem add_scenes_scenes (db : Database) (ss : List Scene) (d : String) (a : Bool) :
    (db.add_scenes ss d a).scenes = addFold d a ss db.scenes := rfl

theorem known_mono_add {db : Database} {d eid : String} (ss : List Scene) (d2 : String)
    (a : Bool) (h : eid ∈ db.get_known_entity_ids d) :
    eid ∈ (db.add_scenes ss d2 a).get_known_entity_ids d := by
  obtain ⟨r, hmem, hds⟩ := mem_known_iff.mp h
  obtain ⟨extra, heq, _⟩ := addFold_prefix d2 a ss db.scenes
  refine mem_known_iff.mpr ⟨r, ?_, hds⟩
  rw [add_scenes_scenes, heq]
  exact List.mem_append_left _ hmem

theorem known_mark_available_iff {db : Database} {d eid : String} {ids : List String} :
    eid ∈ (db.mark_available ids).get_known_entity_ids d ↔
      eid ∈ db.get_known_entity_ids d := by
  constructor
  · intro h
    obtain ⟨r2, hmem, hds⟩ := mem_known_iff.mp h
    rw [mark_available_scenes] at hmem
    obtain ⟨r, hmem2, hEq⟩ := mem_updateRows.mp hmem
    refine mem_known_iff.mpr ⟨r, hmem2, ?_⟩
    by_cases hin : eid ∈ ids
    · rw [if_pos hin] at hEq
      rw [hEq] at hds
      exact hds
    · rw [if_neg hin] at hEq
      rw [← hEq]
      exact hds
  · intro h
    obtain ⟨r, hmem, hds⟩ := mem_known_iff.mp h
    refine mem_known_iff.mpr ⟨if eid ∈ ids then { r with available := true } else r, ?_, ?_⟩
    · rw [mark_available_scenes]
      exact mem_updateRows.mpr ⟨r, hmem, rfl⟩
    · by_cases hin : eid ∈ ids
      · rw [if_pos hin]
        exact hds
      · rw [if_neg hin]
        exact hds

theorem unavailable_add_true_iff {db : Database} {d eid : String} (ss : List Scene)
    (d2 : String) :
    eid ∈ (db.add_scenes ss d2 true).get_unavailable_ids d ↔
      eid ∈ db.get_unavailable_ids d := by
  obtain ⟨extra, heq, hchar⟩ := addFold_prefix d2 true ss db.scenes
  constructor
  · intro h
    obtain ⟨r, hmem, hds, hav⟩ := mem_unavailable_iff.mp h
    rw [add_scenes_scenes, heq] at hmem
    rcases List.mem_append.mp hmem with hleft | hright
    · exact mem_unavailable_iff.mpr ⟨r, hleft, hds, hav⟩
    · obtain ⟨s2, _, hp⟩ := hchar _ hright
      have : r.available = true := by
        have hr : r = mkRow s2 d2 true := congrArg Prod.snd hp
        rw [hr]
        rfl
      rw [this] at hav
      exact absurd hav (by simp)
  · intro h
    obtain ⟨r, hmem, hds, hav⟩ := mem_unavailable_iff.mp h
    refine mem_unavailable_iff.mpr ⟨r, ?_, hds, hav⟩
    rw [add_scenes_scenes, heq]
    exact List.mem_append_left _ hmem

theorem known_add_of_not_present {db : Database} {d : String} {ss : List Scene} {s : Scene}
    (a : Bool) (hmem : s ∈ ss) (hnone : findRow db.scenes s.entityId = none) :
    s.entityId ∈ (db.add_scenes ss d a).get_known_entity_ids d := by
  have hsome := findRow_addFold_isSome d a ss db.scenes s hmem
  obtain ⟨rr, hrr⟩ := Option.isSome_iff_exists.mp hsome
  have hmem2 : (s.entityId, rr) ∈ addFold d a ss db.scenes := findRow_some_mem hrr
  obtain ⟨extra, heq, hchar⟩ := addFold_prefix d a ss db.scenes
  rw [heq] at hmem2
  rcases List.mem_append.mp hmem2 with hleft | hright
  · exact absurd hleft (mem_of_findRow_none hnone rr)
  · obtain ⟨s2, _, hp⟩ := hchar _ hright
    have hds : rr.dataset = d := by
      have hr : rr = mkRow s2 d a := congrArg Prod.snd hp
      rw [hr]
      rfl
    refine mem_known_iff.mpr ⟨rr, ?_, hds⟩
    rw [add_scenes_scenes, heq]
    exact hmem2

/-! Characterization of the reconciliation step. -/

theorem reconcile_newA_iff {db : Database} {d : String} {f : List Scene} {s : Scene} :
    s ∈ (reconcileDataset db d f).2.1 ↔
      s ∈ f ∧ s.entityId ∉ db.get_known_entity_ids d := by
  show s ∈ f.filter (fun s => s.entityId ∉ db.get_known_entity_ids d) ↔ _
  rw [List.mem_filter, decide_eq_true_eq]

theorem reconcile_db_eq (db : Database) (d : String) (f : List Scene) :
    (reconcileDataset db d f).1
      = (db.add_scenes (reconcileDataset db d f).2.1 d true).mark_available
          (reconcileDataset db d f).2.2 := by
  simp only [reconcileDataset]
  by_cases h1 : (f.filter (fun s => s.entityId ∉ db.get_known_entity_ids d)).isEmpty
  · rw [if_pos h1]
    have hnil : f.filter (fun s => s.entityId ∉ db.get_known_entity_ids d) = [] :=
      List.isEmpty_iff.mp h1
    rw [hnil, add_scenes_nil]
    by_cases h2 : (((f.map Scene.entityId).dedup).filter
        (fun eid => eid ∈ db.get_unavailable_ids d)).isEmpty
    · rw [if_pos h2, List.isEmpty_iff.mp h2, mark_available_nil]
    · rw [if_neg h2]
  · rw [if_neg h1]
    by_cases h2 : (((f.map Scene.entityId).dedup).filter
        (fun eid => eid ∈ (db.add_scenes
          (f.filter (fun s => s.entityId ∉ db.get_known_entity_ids d)) d
            true).get_unavailable_ids d)).isEmpty
    · rw [if_pos h2, List.isEmpty_iff.mp h2, mark_available_nil]
    · rw [if_neg h2]

theorem reconcile_newD_iff {db : Database} {d : String} {f : List Scene} {e : String} :
    e ∈ (reconcileDataset db d f).2.2 ↔
      e ∈ f.map Scene.entityId ∧ e ∈ db.get_unavailable_ids d := by
  simp only [reconcileDataset]
  by_cases h1 : (f.filter (fun s => s.entityId ∉ db.get_known_entity_ids d)).isEmpty
  · rw [if_pos h1]
    rw [List.mem_filter, decide_eq_true_eq, List.mem_dedup]
  · rw [if_neg h1]
    rw [List.mem_filter, decide_eq_true_eq, List.mem_dedup,
      unavailable_add_true_iff _ d]

theorem unavailable_mark_available {db : Database} {d e : String} {ids : List String}
    (h : e ∈ (db.mark_available ids).get_unavailable_ids d) :
    e ∈ db.get_unavailable_ids d ∧ e ∉ ids := by
  obtain ⟨r2, hmem, hds, hav⟩ := mem_unavailable_iff.mp h
  rw [mark_available_scenes] at hmem
  obtain ⟨r, hmem2, hEq⟩ := mem_updateRows.mp hmem
  by_cases hin : e ∈ ids
  · rw [if_pos hin] at hEq
    rw [hEq] at hav
    simp at hav
  · rw [if_neg hin] at hEq
    refine ⟨mem_unavailable_iff.mpr ⟨r, hmem2, ?_, ?_⟩, hin⟩
    · rw [← hEq]
      exact hds
    · rw [← hEq]
      exact hav

/-- C1: per dataset and per cycle, newlyAvailable is exactly the fetched
set minus the known ids of the dataset and the store update applies
add_scenes with available = true to it; newlyDigitized is exactly the
fetched id set intersected with the unavailable ids of the pre-cycle
store and the store update applies mark_available to it; and the dataset
loop hands exactly the newlyAvailable scenes onward in the notification
accumulator, recording newlyDigitized silently. -/
theorem C1_reconcile_classification (db : Database) (dataset : String) (fetched : List Scene)
    (fetch : String → Except MonitorError (List Scene)) (rest : List String)
    (acc : List TaggedScene) (hf : fetch dataset = Except.ok fetched) :
    (∀ s : Scene, s ∈ (reconcileDataset db dataset fetched).2.1 ↔
        s ∈ fetched ∧ s.entityId ∉ db.get_known_entity_ids dataset) ∧
    ((reconcileDataset db dataset fetched).1
      = (db.add_scenes (reconcileDataset db dataset fetched).2.1 dataset true).mark_available
          (reconcileDataset db dataset fetched).2.2) ∧
    (∀ e : String, e ∈ (reconcileDataset db dataset fetched).2.2 ↔
        e ∈ fetched.map Scene.entityId ∧ e ∈ db.get_unavailable_ids dataset) ∧
    monitorLoop fetch (dataset :: rest) db acc
      = monitorLoop fetch rest (reconcileDataset db dataset fetched).1
          (acc ++ (reconcileDataset db dataset fetched).2.1.map (fun s => ⟨s, dataset⟩)) := by
  refine ⟨fun s => reconcile_newA_iff, reconcile_db_eq db dataset fetched,
    fun e => reconcile_newD_iff, ?_⟩
  rw [monitorLoop, hf]

theorem C1_reconcile_classification_witness :
    (∀ s : Scene, s ∈ (reconcileDataset dbU "corona2" [sceneN, sceneU]).2.1 ↔
        s ∈ [sceneN, sceneU] ∧ s.entityId ∉ dbU.get_known_entity_ids "corona2") ∧
    ((reconcileDataset dbU "corona2" [sceneN, sceneU]).1
      = (dbU.add_scenes (reconcileDataset dbU "corona2" [sceneN, sceneU]).2.1 "corona2"
          true).mark_available (reconcileDataset dbU "corona2" [sceneN, sceneU]).2.2) ∧
    (∀ e : String, e ∈ (reconcileDataset dbU "corona2" [sceneN, sceneU]).2.2 ↔
        e ∈ [sceneN, sceneU].map Scene.entityId ∧
          e ∈ dbU.get_unavailable_ids "corona2") ∧
    monitorLoop (fun d => if d = "corona2" then Except.ok [sceneN, sceneU] else Except.ok [])
        ["corona2"] dbU []
      = monitorLoop (fun d => if d = "corona2" then Except.ok [sceneN, sceneU] else Except.ok [])
          [] (reconcileDataset dbU "corona2" [sceneN, sceneU]).1
          ([] ++ (reconcileDataset dbU "corona2" [sceneN, sceneU]).2.1.map
            (fun s => ⟨s, "corona2"⟩)) :=
  C1_reconcile_classification dbU "corona2" [sceneN, sceneU]
    (fun d => if d = "corona2" then Except.ok [sceneN, sceneU] else Except.ok [])
    [] [] rfl

/-- C8 counterexample: with scene id X already stored under dataset a, and
the remote response for dataset b containing X on both runs, the second
reconciliation of dataset b classifies X as newlyAvailable again: INSERT
OR IGNORE never rewrites the existing row, so X never joins the known ids
of dataset b and the second-run newlyAvailable set is not empty. -/
theorem C8_idempotence_counterexample :
    (reconcileDataset (reconcileDataset dbX "b" [sceneX]).1 "b" [sceneX]).2.1 = [sceneX] ∧
      ([sceneX] : List Scene) ≠ [] := by
  exact ⟨by decide, by decide⟩

/-- C8 (amended): running reconciliation twice in a row with identical
remote responses classifies newlyAvailable and newlyDigitized as empty on
the second run, for every store state in which each fetched id already
present in the store is recorded under the reconciled dataset (ids are
unique across datasets in the remote catalog, so reachable stores satisfy
this). -/
theorem C8_idempotent_second_run (db : Database) (d : String) (fetched : List Scene)
    (H : ∀ s ∈ fetched, ∀ r : SceneRow, (s.entityId, r) ∈ db.scenes → r.dataset = d) :
    (reconcileDataset (reconcileDataset db d fetched).1 d fetched).2.1 = [] ∧
    (reconcileDataset (reconcileDataset db d fetched).1 d fetched).2.2 = [] := by
  have hA : ∀ s ∈ fetched,
      s.entityId ∈ (reconcileDataset db d fetched).1.get_known_entity_ids d := by
    intro s hs
    rw [reconcile_db_eq]
    apply known_mark_available_iff.mpr
    by_cases hk : s.entityId ∈ db.get_known_entity_ids d
    · exact known_mono_add _ _ _ hk
    · have hsA : s ∈ (reconcileDataset db d fetched).2.1 := reconcile_newA_iff.mpr ⟨hs, hk⟩
      have hnone : findRow db.scenes s.entityId = none := by
        apply findRow_eq_none_of_not_mem
        intro r hr
        exact hk (mem_known_iff.mpr ⟨r, hr, H s hs r hr⟩)
      exact known_add_of_not_present true hsA hnone
  constructor
  · show fetched.filter
        (fun s => s.entityId ∉ (reconcileDataset db d fetched).1.get_known_entity_ids d) = []
    rw [List.filter_eq_nil_iff]
    intro s hs
    simp only [decide_eq_true_eq, not_not]
    exact hA s hs
  · rw [List.eq_nil_iff_forall_not_mem]
    intro e hcontra
    obtain ⟨hmap, hunav2⟩ := reconcile_newD_iff.mp hcontra
    rw [reconcile_db_eq] at hunav2
    obtain ⟨hunavAdd, hnotin⟩ := unavailable_mark_available hunav2
    have hunav : e ∈ db.get_unavailable_ids d := (unavailable_add_true_iff _ d).mp hunavAdd
    exact hnotin (reconcile_newD_iff.mpr ⟨hmap, hunav⟩)

theorem C8_idempotent_second_run_witness :
    (reconcileDataset (reconcileDataset dbU "corona2" [sceneU, sceneN]).1 "corona2"
      [sceneU, sceneN]).2.1 = [] ∧
    (reconcileDataset (reconcileDataset dbU "corona2" [sceneU, sceneN]).1 "corona2"
      [sceneU, sceneN]).2.2 = [] :=
  C8_idempotent_second_run dbU "corona2" [sceneU, sceneN]
    (fun s _ r hr => by
      have hrow : r = rowU := by
        have hx : (s.entityId, r) = ("U", rowU) := by simpa [dbU] using hr
        exact congrArg Prod.snd hx
      rw [hrow]
      rfl)

/-! Availability monotonicity of every store-mutating operation. -/

theorem availPreserved_refl (db : Database) : availPreserved db db :=
  fun _ r h ha => ⟨r, h, ha⟩

theorem availPreserved_trans {a b c : Database} (h1 : availPreserved a b)
    (h2 : availPreserved b c) : availPreserved a c := by
  intro eid r h ha
  obtain ⟨r2, hb, ha2⟩ := h1 eid r h ha
  exact h2 eid r2 hb ha2

theorem availPreserved_of_scenes_eq {a b : Database} (h : b.scenes = a.scenes) :
    availPreserved a b := by
  intro eid r hf ha
  exact ⟨r, h ▸ hf, ha⟩

theorem availPreserved_add (db : Database) (ss : List Scene) (d : String) (a : Bool) :
    availPreserved db (db.add_scenes ss d a) := by
  intro eid r hf ha
  refine ⟨r, ?_, ha⟩
  rw [add_scenes_scenes]
  exact findRow_addFold_of_some d a ss hf

theorem availPreserved_mark_available (db : Database) (ids : List String) :
    availPreserved db (db.mark_available ids) := by
  intro eid r hf ha
  refine ⟨if eid ∈ ids then { r with available := true } else r, ?_, ?_⟩
  · rw [mark_available_scenes, findRow_updateRows, hf]
    rfl
  · by_cases hin : eid ∈ ids
    · rw [if_pos hin]
    · rw [if_neg hin]
      exact ha

theorem availPreserved_mark_notified (db : Database) (ids : List String) :
    availPreserved db (db.mark_notified ids) := by
  intro eid r hf ha
  refine ⟨if eid ∈ ids then { r with notified := true } else r, ?_, ?_⟩
  · rw [mark_notified_scenes, findRow_updateRows, hf]
    rfl
  · by_cases hin : eid ∈ ids
    · rw [if_pos hin]
      exact ha
    · rw [if_neg hin]
      exact ha

theorem availPreserved_seedFinish (dataset : String) (pending : List Scene) (db : Database)
    (added : Nat) (events : List SeedEvent) (startN : Nat) :
    availPreserved db (seedFinish dataset pending db added events startN).db := by
  rw [seedFinish]
  by_cases hp : pending.isEmpty
  · rw [if_pos hp]
    exact availPreserved_of_scenes_eq rfl
  · rw [if_neg hp]
    exact availPreserved_trans (availPreserved_add db pending dataset false)
      (availPreserved_of_scenes_eq rfl)

theorem availPreserved_seedLoop (remote : Nat → List Scene) (dataset : String)
    (known avail : String → Bool) :
    ∀ (fuel starting_number : Nat) (pending : List Scene) (db : Database) (added : Nat)
      (events : List SeedEvent),
      availPreserved db
        (seedLoop remote dataset known avail fuel starting_number pending db added events).db := by
  intro fuel
  induction fuel with
  | zero => intro start pending db added events; exact availPreserved_refl db
  | succ fuel ih =>
    intro start pending db added events
    rw [seedLoop]
    by_cases hE : (remote start).isEmpty
    · rw [if_pos hE]
      exact availPreserved_seedFinish dataset pending db added events start
    · rw [if_neg hE]
      dsimp only
      by_cases hflush : flush_every * batch_size ≤
          (pending ++ seedKeep known avail (remote start)).length
      · rw [if_pos hflush]
        by_cases hshort : (remote start).length < batch_size
        · rw [if_pos hshort]
          refine availPreserved_trans ?_ (availPreserved_seedFinish _ _ _ _ _ _)
          exact availPreserved_trans
            (availPreserved_add db (pending ++ seedKeep known avail (remote start))
              dataset false)
            (availPreserved_of_scenes_eq rfl)
        · rw [if_neg hshort]
          refine availPreserved_trans ?_ (ih _ _ _ _ _)
          exact availPreserved_trans
            (availPreserved_add db (pending ++ seedKeep known avail (remote start))
              dataset false)
            (availPreserved_of_scenes_eq rfl)
      · rw [if_neg hflush]
        by_cases hshort : (remote start).length < batch_size
        · rw [if_pos hshort]
          exact availPreserved_seedFinish dataset _ db added events _
        · rw [if_neg hshort]
          exact ih _ _ _ _ _

theorem availPreserved_reconcile (db : Database) (d : String) (f : List Scene) :
    availPreserved db (reconcileDataset db d f).1 := by
  rw [reconcile_db_eq]
  exact availPreserved_trans (availPreserved_add db _ d true)
    (availPreserved_mark_available _ _)

theorem availPreserved_monitorLoop (fetch : String → Except MonitorError (List Scene)) :
    ∀ (datasets : List String) (db : Database) (acc : List TaggedScene),
      availPreserved db (monitorLoop fetch datasets db acc).1 := by
  intro datasets
  induction datasets with
  | nil => intro db acc; exact availPreserved_refl db
  | cons d rest ih =>
    intro db acc
    rw [monitorLoop]
    cases hf : fetch d with
    | error e => exact availPreserved_refl db
    | ok scenes =>
      exact availPreserved_trans (availPreserved_reconcile db d scenes) (ih _ _)

theorem availPreserved_dispatch (cfg : MonitorConfig) (w : String → TgOutcome)
    (enrich : String → List String) (db : Database) (ts : List TaggedScene) :
    availPreserved db (dispatchNotifications cfg w enrich db ts).1 := by
  rw [dispatchNotifications]
  by_cases hE : ts.isEmpty
  · rw [if_pos hE]
    exact availPreserved_refl db
  · rw [if_neg hE]
    exact availPreserved_mark_notified db _

theorem availPreserved_run_monitor (cfg : MonitorConfig) (w : String → TgOutcome)
    (enrich : String → List String) (fetch : String → Except MonitorError (List Scene))
    (datasets : List String) (db : Database) :
    availPreserved db (run_monitor cfg w enrich fetch datasets db).db := by
  rw [run_monitor]
  cases hl : (monitorLoop fetch datasets db []).2.2 with
  | some e =>
    simp only [hl]
    exact availPreserved_monitorLoop fetch datasets db []
  | none =>
    simp only [hl]
    exact availPreserved_trans (availPreserved_monitorLoop fetch datasets db [])
      (availPreserved_dispatch cfg w enrich _ _)

/-- C7: once a scene row has available = 1, no operation of the system
(add_scenes, mark_available, mark_notified, a backfill seed walk, or a
full reconciliation run) ever sets it back to 0. -/
theorem C7_available_monotone (db : Database) (ss : List Scene) (d d2 : String) (a : Bool)
    (ids ids2 : List String) (remote : Nat → List Scene) (known avail : String → Bool)
    (fuel : Nat) (cfg : MonitorConfig) (w : String → TgOutcome)
    (enrich : String → List String) (fetch : String → Except MonitorError (List Scene))
    (datasets : List String) :
    availPreserved db (db.add_scenes ss d a) ∧
    availPreserved db (db.mark_available ids) ∧
    availPreserved db (db.mark_notified ids2) ∧
    availPreserved db (search_all_scenes remote d2 db known avail fuel).db ∧
    availPreserved db (run_monitor cfg w enrich fetch datasets db).db :=
  ⟨availPreserved_add db ss d a, availPreserved_mark_available db ids,
    availPreserved_mark_notified db ids2,
    availPreserved_seedLoop remote d2 known avail fuel _ [] db 0 [],
    availPreserved_run_monitor cfg w enrich fetch datasets db⟩

theorem C7_available_monotone_witness :
    ∃ r2, findRow (dbAvail.mark_notified ["X"]).scenes "X" = some r2 ∧
      r2.available = true :=
  ((C7_available_monotone dbAvail [] "corona2" "corona2" true [] ["X"] (fun _ => [])
      (fun _ => false) (fun _ => false) 0
      ⟨false, false, 20, false, false⟩ (fun _ => ⟨true, true, true⟩) (fun _ => [])
      (fun _ => Except.ok []) []).2.2.1) "X" rowAvail rfl rfl

/-! Error propagation of the dataset loop. -/

/-- C5 counterexample: with two datasets and a remote-service error raised
while fetching the first, run_monitor surfaces the error with the store
untouched: the second dataset is never processed, although processing it
would have recorded its scene Y.  The dataset loop has no per-dataset
exception handler. -/
theorem C5_isolation_counterexample :
    (run_monitor ⟨false, false, 20, false, false⟩ (fun _ => ⟨true, true, true⟩) (fun _ => [])
      (fun d => if d = "corona2" then Except.error (MonitorError.remoteService none)
        else Except.ok [sceneY])
      ["corona2", "declassii"] ⟨[], []⟩).err = some (MonitorError.remoteService none) ∧
    (run_monitor ⟨false, false, 20, false, false⟩ (fun _ => ⟨true, true, true⟩) (fun _ => [])
      (fun d => if d = "corona2" then Except.error (MonitorError.remoteService none)
        else Except.ok [sceneY])
      ["corona2", "declassii"] ⟨[], []⟩).db.get_known_entity_ids "declassii" = [] ∧
    (reconcileDataset (⟨[], []⟩ : Database) "declassii" [sceneY]).1.get_known_entity_ids
      "declassii" = ["Y"] := by
  refine ⟨rfl, by decide, by decide⟩

/-- C5 (amended): an error raised while processing one dataset aborts the
whole remaining run, not just that dataset: the store keeps only the
effects of the datasets processed before the failure, every later dataset
is left unprocessed, no notification is dispatched, the error is
surfaced, and the scoped logout is still attempted. -/
theorem C5_error_aborts_run (cfg : MonitorConfig) (w : String → TgOutcome)
    (enrich : String → List String) (fetch : String → Except MonitorError (List Scene))
    (d : String) (rest : List String) (db : Database) (e : MonitorError)
    (hf : fetch d = Except.error e) :
    run_monitor cfg w enrich fetch (d :: rest) db
      = ⟨db, [], some e, true⟩ := by
  have hloop : monitorLoop fetch (d :: rest) db [] = (db, [], some e) := by
    rw [monitorLoop, hf]
  simp only [run_monitor, hloop]

theorem C5_error_aborts_run_witness :
    run_monitor ⟨false, false, 20, false, false⟩ (fun _ => ⟨true, true, true⟩) (fun _ => [])
      (fun d => if d = "corona2" then Except.error (MonitorError.remoteService none)
        else Except.ok [sceneY]) ["corona2", "declassii"] ⟨[], []⟩
      = ⟨⟨[], []⟩, [], some (MonitorError.remoteService none), true⟩ :=
  C5_error_aborts_run ⟨false, false, 20, false, false⟩ (fun _ => ⟨true, true, true⟩)
    (fun _ => [])
    (fun d => if d = "corona2" then Except.error (MonitorError.remoteService none)
      else Except.ok [sceneY]) "corona2" ["declassii"] ⟨[], []⟩
    (MonitorError.remoteService none) rfl

/-! The per-record Telegram fallback chain. -/

/-- C2: for a record delivered through the rich path with at least two
enrichment images, a failing media-group send falls back to a single-photo
send using the first image; if that also fails, a text-only send follows;
with no enrichment images the text-only send is used directly; the
function returns normally (true) in every case; and the dispatcher marks
every record of the cycle notified whatever the delivery outcomes were. -/
theorem C2_fallback_chain (cfg : MonitorConfig) (w : TgOutcome) (media : List String)
    (img : String) (tl : List String) (db : Database) (ts : List TaggedScene)
    (wf : String → TgOutcome) (enrich : String → List String)
    (henabled : cfg.telegram_enabled = true) (hcreds : cfg.telegram_has_creds = true)
    (hmedia : media = img :: tl) (h2 : 2 ≤ media.length) (hmg : w.mediaGroupOk = false)
    (hts : ts ≠ []) :
    (send_telegram_scene cfg w media).1
      = [Delivery.mediaGroup false, Delivery.singlePhoto img w.photoOk]
        ++ (if w.photoOk then [] else [Delivery.textOnly w.textOk]) ∧
    (send_telegram_scene cfg w media).2 = true ∧
    (send_telegram_scene cfg w []).1 = [Delivery.textOnly w.textOk] ∧
    (send_telegram_scene cfg w []).2 = true ∧
    (dispatchNotifications cfg wf enrich db ts).1
      = db.mark_notified (ts.map (fun t => t.scene.entityId)) := by
  have hnotempty : ¬ ts.isEmpty = true := fun hx => hts (List.isEmpty_iff.mp hx)
  refine ⟨?_, ?_, ?_, ?_, ?_⟩
  · simp only [send_telegram_scene, henabled, hmg, hmedia]
    simp only [if_neg (by simp : ¬ (true : Bool) = false),
      if_neg (by rw [hcreds]; simp : ¬ cfg.telegram_has_creds = false)]
    rw [hmedia] at h2
    simp only [if_pos h2, Bool.false_eq_true, if_false, List.headD_cons]
    cases hp : w.photoOk with
    | true => simp
    | false => simp
  · simp only [send_telegram_scene, henabled, hmg, hmedia]
    simp only [if_neg (by simp : ¬ (true : Bool) = false),
      if_neg (by rw [hcreds]; simp : ¬ cfg.telegram_has_creds = false)]
    rw [hmedia] at h2
    simp only [if_pos h2, Bool.false_eq_true, if_false, List.headD_cons]
    cases hp : w.photoOk with
    | true => simp
    | false => simp
  · simp only [send_telegram_scene, henabled]
    simp only [if_neg (by simp : ¬ (true : Bool) = false),
      if_neg (by rw [hcreds]; simp : ¬ cfg.telegram_has_creds = false)]
    simp [List.length_nil]
  · simp only [send_telegram_scene, henabled]
    simp only [if_neg (by simp : ¬ (true : Bool) = false),
      if_neg (by rw [hcreds]; simp : ¬ cfg.telegram_has_creds = false)]
    simp [List.length_nil]
  · rw [dispatchNotifications, if_neg hnotempty]

theorem C2_fallback_chain_witness :
    (send_telegram_scene ⟨true, true, 20, false, false⟩ ⟨false, false, false⟩
      ["image.jpg", "location.png"]).1
      = [Delivery.mediaGroup false, Delivery.singlePhoto "image.jpg" false]
        ++ (if (false : Bool) then [] else [Delivery.textOnly false]) ∧
    (send_telegram_scene ⟨true, true, 20, false, false⟩ ⟨false, false, false⟩
      ["image.jpg", "location.png"]).2 = true ∧
    (send_telegram_scene ⟨true, true, 20, false, false⟩ ⟨false, false, false⟩ []).1
      = [Delivery.textOnly false] ∧
    (send_telegram_scene ⟨true, true, 20, false, false⟩ ⟨false, false, false⟩ []).2 = true ∧
    (dispatchNotifications ⟨true, true, 20, false, false⟩ (fun _ => ⟨false, false, false⟩)
      (fun _ => []) dbU [⟨sceneX, "corona2"⟩]).1
      = dbU.mark_notified (([⟨sceneX, "corona2"⟩] : List TaggedScene).map
          (fun t => t.scene.entityId)) :=
  C2_fallback_chain ⟨true, true, 20, false, false⟩ ⟨false, false, false⟩
    ["image.jpg", "location.png"] "image.jpg" ["location.png"] dbU [⟨sceneX, "corona2"⟩]
    (fun _ => ⟨false, false, false⟩) (fun _ => []) rfl rfl rfl (by decide) rfl (by decide)

/-! The summary path of the dispatcher. -/

theorem mem_notifierSend {cfg : MonitorConfig} {m : String} {a : Action}
    (h : a ∈ notifierSend cfg m) :
    a = Action.summaryNtfy m ∨ a = Action.summaryTelegramText m ∨ a = Action.summaryDiscord m := by
  rw [notifierSend] at h
  rcases List.mem_append.mp h with h12 | h3
  · rcases List.mem_append.mp h12 with h1 | h2
    · by_cases hn : cfg.ntfy_enabled
      · rw [if_pos hn, List.mem_singleton] at h1
        exact Or.inl h1
      · rw [if_neg hn] at h1
        exact absurd h1 (List.not_mem_nil a)
    · by_cases ht : cfg.telegram_enabled
      · rw [if_pos ht, List.mem_singleton] at h2
        exact Or.inr (Or.inl h2)
      · rw [if_neg ht] at h2
        exact absurd h2 (List.not_mem_nil a)
  · by_cases hd : cfg.discord_enabled
    · rw [if_pos hd, List.mem_singleton] at h3
      exact Or.inr (Or.inr h3)
    · rw [if_neg hd] at h3
      exact absurd h3 (List.not_mem_nil a)

/-- C9: when the newly available count exceeds the individual-message
threshold, or the rich channel is not enabled, the dispatcher emits the
audit write followed by exactly one summary send per enabled plain
channel, with no per-record Telegram message; the summary message is
format_notification of the cycle set, whose per-dataset blocks list at
most three examples and carry the and-N-more suffix exactly when the
group holds more than three scenes. -/
theorem C9_summary_dispatch (cfg : MonitorConfig) (wf : String → TgOutcome)
    (enrich : String → List String) (db : Database) (ts : List TaggedScene)
    (hts : ts ≠ [])
    (hcond : cfg.max_individual_messages < ts.length ∨ cfg.telegram_enabled = false) :
    (dispatchNotifications cfg wf enrich db ts).2
      = Action.saveUrls ts.length :: notifierSend cfg (format_notification ts ts.length) ∧
    (∀ a ∈ (dispatchNotifications cfg wf enrich db ts).2,
        ∀ eid ds, a ≠ Action.telegramScene eid ds) ∧
    (notifierSend cfg (format_notification ts ts.length)).length
      = (if cfg.ntfy_enabled then 1 else 0) + (if cfg.telegram_enabled then 1 else 0)
        + (if cfg.discord_enabled then 1 else 0) ∧
    (∀ g ∈ groupByDataset ts,
        datasetBlock g
          = ("\n<b>" ++ g.1 ++ "</b>: " ++ toString g.2.length ++ " scenes")
            :: ((g.2.take 3).map exampleLine
              ++ (if 3 < g.2.length
                then ["  ... and " ++ toString (g.2.length - 3) ++ " more"] else [])) ∧
        ((g.2.take 3).map exampleLine).length = min 3 g.2.length) := by
  have hnotempty : ¬ ts.isEmpty = true := fun hx => hts (List.isEmpty_iff.mp hx)
  have hbranch : ¬ (cfg.telegram_enabled = true ∧ ts.length ≤ cfg.max_individual_messages) := by
    rintro ⟨htel, hle⟩
    rcases hcond with hgt | hoff
    · omega
    · rw [hoff] at htel
      exact Bool.false_ne_true htel
  have hacts : (dispatchNotifications cfg wf enrich db ts).2
      = Action.saveUrls ts.length :: notifierSend cfg (format_notification ts ts.length) := by
    rw [dispatchNotifications, if_neg hnotempty]
    dsimp only
    rw [if_neg hbranch]
  refine ⟨hacts, ?_, ?_, ?_⟩
  · intro a ha eid ds
    rw [hacts] at ha
    rcases List.mem_cons.mp ha with hEq | hmem
    · rw [hEq]
      intro hx
      exact Action.noConfusion hx
    · rcases mem_notifierSend hmem with h1 | h2 | h3
      · rw [h1]
        intro hx
        exact Action.noConfusion hx
      · rw [h2]
        intro hx
        exact Action.noConfusion hx
      · rw [h3]
        intro hx
        exact Action.noConfusion hx
  · cases hn : cfg.ntfy_enabled <;> cases ht2 : cfg.telegram_enabled <;>
      cases hd : cfg.discord_enabled <;> simp [notifierSend, hn, ht2, hd]
  · intro g _
    exact ⟨rfl, by rw [List.length_map, List.length_take]⟩

theorem C9_summary_dispatch_witness :
    (dispatchNotifications ⟨false, false, 2, true, false⟩ (fun _ => ⟨true, true, true⟩)
      (fun _ => []) dbU
      [⟨sceneX, "corona2"⟩, ⟨sceneY, "corona2"⟩, ⟨sceneN, "declassii"⟩]).2
      = Action.saveUrls ([⟨sceneX, "corona2"⟩, ⟨sceneY, "corona2"⟩,
          ⟨sceneN, "declassii"⟩] : List TaggedScene).length ::
          notifierSend ⟨false, false, 2, true, false⟩
            (format_notification [⟨sceneX, "corona2"⟩, ⟨sceneY, "corona2"⟩,
              ⟨sceneN, "declassii"⟩]
              ([⟨sceneX, "corona2"⟩, ⟨sceneY, "corona2"⟩,
                ⟨sceneN, "declassii"⟩] : List TaggedScene).length) ∧
    (∀ a ∈ (dispatchNotifications ⟨false, false, 2, true, false⟩ (fun _ => ⟨true, true, true⟩)
        (fun _ => []) dbU
        [⟨sceneX, "corona2"⟩, ⟨sceneY, "corona2"⟩, ⟨sceneN, "declassii"⟩]).2,
        ∀ eid ds, a ≠ Action.telegramScene eid ds) ∧
    (notifierSend ⟨false, false, 2, true, false⟩
        (format_notification [⟨sceneX, "corona2"⟩, ⟨sceneY, "corona2"⟩, ⟨sceneN, "declassii"⟩]
          ([⟨sceneX, "corona2"⟩, ⟨sceneY, "corona2"⟩,
            ⟨sceneN, "declassii"⟩] : List TaggedScene).length)).length
      = (if (true : Bool) then 1 else 0) + (if (false : Bool) then 1 else 0)
        + (if (false : Bool) then 1 else 0) ∧
    (∀ g ∈ groupByDataset [⟨sceneX, "corona2"⟩, ⟨sceneY, "corona2"⟩, ⟨sceneN, "declassii"⟩],
        datasetBlock g
          = ("\n<b>" ++ g.1 ++ "</b>: " ++ toString g.2.length ++ " scenes")
            :: ((g.2.take 3).map exampleLine
              ++ (if 3 < g.2.length
                then ["  ... and " ++ toString (g.2.length - 3) ++ " more"] else [])) ∧
        ((g.2.take 3).map exampleLine).length = min 3 g.2.length) :=
  C9_summary_dispatch ⟨false, false, 2, true, false⟩ (fun _ => ⟨true, true, true⟩)
    (fun _ => []) dbU [⟨sceneX, "corona2"⟩, ⟨sceneY, "corona2"⟩, ⟨sceneN, "declassii"⟩]
    (by decide) (Or.inl (by decide))

/-! Flush behavior of the backfill seeder. -/

theorem seedKeep_pageK :
    seedKeep (fun e => e == "K") (fun _ => false) fullPageK = [sceneN] := by
  rw [fullPageK, seedKeep, List.filter_cons_of_pos (by decide)]
  have hrep : ∀ n : Nat, (List.replicate n sceneK).filter
      (fun s => decide (s.entityId ≠ "" ∧ (fun e => e == "K") s.entityId = false ∧
        (fun _ : String => false) s.entityId = false)) = [] := by
    intro n
    induction n with
    | zero => rfl
    | succ n ih => rw [List.replicate_succ, List.filter_cons_of_neg (by decide), ih]
  rw [hrep]

theorem fullPageK_length : fullPageK.length = 10000 := by
  rw [fullPageK, List.length_cons, List.length_replicate]

theorem fullPageK_not_short : ¬ fullPageK.length < batch_size := by
  rw [fullPageK_length, show batch_size = 10000 from rfl]
  omega

theorem seedLoop_pageK_step (fuel start : Nat) (pending : List Scene) (db : Database)
    (added : Nat) (events : List SeedEvent)
    (hlen : (pending ++ [sceneN]).length < 50000) :
    seedLoop (fun _ => fullPageK) "corona2" (fun e => e == "K") (fun _ => false)
        (fuel + 1) start pending db added events
      = seedLoop (fun _ => fullPageK) "corona2" (fun e => e == "K") (fun _ => false)
          fuel (start + batch_size) (pending ++ [sceneN]) db added events := by
  rw [seedLoop]
  rw [if_neg (by decide : ¬ fullPageK.isEmpty = true)]
  dsimp only
  rw [seedKeep_pageK]
  rw [if_neg (by
    rw [show flush_every * batch_size = 50000 from rfl]
    omega : ¬ flush_every * batch_size ≤ (pending ++ [sceneN]).length)]
  rw [if_neg fullPageK_not_short]

/-- C6 counterexample: six full pages, each holding exactly one unscanned
record among 10 000; after walking all six pages (with fuel 6) the walk
has flushed nothing and saved no cursor: the store is unchanged, the
event trace is empty, and the position has advanced to 60 001.  A crash
at this point replays six pages of work, more than one 5-page flush
window, refuting flush-after-every-5-pages. -/
theorem C6_flush_counterexample :
    seedLoop (fun _ => fullPageK) "corona2" (fun e => e == "K") (fun _ => false)
        6 1 [] dbU 0 []
      = ⟨dbU, 0, [], 60001, false⟩ :=
  calc seedLoop (fun _ => fullPageK) "corona2" (fun e => e == "K") (fun _ => false)
        6 1 [] dbU 0 []
      = seedLoop (fun _ => fullPageK) "corona2" (fun e => e == "K") (fun _ => false)
          5 (1 + batch_size) ([] ++ [sceneN]) dbU 0 [] :=
        seedLoop_pageK_step 5 1 [] dbU 0 [] (by decide)
    _ = seedLoop (fun _ => fullPageK) "corona2" (fun e => e == "K") (fun _ => false)
          4 (1 + batch_size + batch_size) (([] ++ [sceneN]) ++ [sceneN]) dbU 0 [] :=
        seedLoop_pageK_step 4 (1 + batch_size) ([] ++ [sceneN]) dbU 0 [] (by decide)
    _ = seedLoop (fun _ => fullPageK) "corona2" (fun e => e == "K") (fun _ => false)
          3 (1 + batch_size + batch_size + batch_size)
          ((([] ++ [sceneN]) ++ [sceneN]) ++ [sceneN]) dbU 0 [] :=
        seedLoop_pageK_step 3 (1 + batch_size + batch_size) (([] ++ [sceneN]) ++ [sceneN])
          dbU 0 [] (by decide)
    _ = seedLoop (fun _ => fullPageK) "corona2" (fun e => e == "K") (fun _ => false)
          2 (1 + batch_size + batch_size + batch_size + batch_size)
          (((([] ++ [sceneN]) ++ [sceneN]) ++ [sceneN]) ++ [sceneN]) dbU 0 [] :=
        seedLoop_pageK_step 2 (1 + batch_size + batch_size + batch_size)
          ((([] ++ [sceneN]) ++ [sceneN]) ++ [sceneN]) dbU 0 [] (by decide)
    _ = seedLoop (fun _ => fullPageK) "corona2" (fun e => e == "K") (fun _ => false)
          1 (1 + batch_size + batch_size + batch_size + batch_size + batch_size)
          ((((([] ++ [sceneN]) ++ [sceneN]) ++ [sceneN]) ++ [sceneN]) ++ [sceneN]) dbU 0 [] :=
        seedLoop_pageK_step 1 (1 + batch_size + batch_size + batch_size + batch_size)
          (((([] ++ [sceneN]) ++ [sceneN]) ++ [sceneN]) ++ [sceneN]) dbU 0 [] (by decide)
    _ = seedLoop (fun _ => fullPageK) "corona2" (fun e => e == "K") (fun _ => false)
          0 (1 + batch_size + batch_size + batch_size + batch_size + batch_size + batch_size)
          (((((([] ++ [sceneN]) ++ [sceneN]) ++ [sceneN]) ++ [sceneN]) ++ [sceneN])
            ++ [sceneN]) dbU 0 [] :=
        seedLoop_pageK_step 0
          (1 + batch_size + batch_size + batch_size + batch_size + batch_size)
          ((((([] ++ [sceneN]) ++ [sceneN]) ++ [sceneN]) ++ [sceneN]) ++ [sceneN])
          dbU 0 [] (by decide)
    _ = ⟨dbU, 0, [], 60001, false⟩ := rfl

theorem seedFinish_events_all (dataset : String) (pending : List Scene) (db : Database)
    (added : Nat) (events : List SeedEvent) (startN : Nat)
    (h : events.all goodFlushEvent = true) :
    (seedFinish dataset pending db added events startN).events.all goodFlushEvent = true := by
  rw [seedFinish]
  by_cases hp : pending.isEmpty
  · rw [if_pos hp]
    dsimp only
    rw [List.all_append, h]
    rfl
  · rw [if_neg hp]
    dsimp only
    rw [List.all_append, List.all_append, h]
    rfl

theorem seedLoop_events_all (remote : Nat → List Scene) (dataset : String)
    (known avail : String → Bool) :
    ∀ (fuel start : Nat) (pending : List Scene) (db : Database) (added : Nat)
      (events : List SeedEvent), events.all goodFlushEvent = true →
      (seedLoop remote dataset known avail fuel start pending db added
        events).events.all goodFlushEvent = true := by
  intro fuel
  induction fuel with
  | zero => intro start pending db added events h; exact h
  | succ fuel ih =>
    intro start pending db added events h
    rw [seedLoop]
    by_cases hE : (remote start).isEmpty
    · rw [if_pos hE]
      exact seedFinish_events_all dataset pending db added events start h
    · rw [if_neg hE]
      dsimp only
      by_cases hflush : flush_every * batch_size ≤
          (pending ++ seedKeep known avail (remote start)).length
      · rw [if_pos hflush]
        have hgood : (events ++ [SeedEvent.flush
            (pending ++ seedKeep known avail (remote start)).length
            (start + batch_size)]).all goodFlushEvent = true := by
          rw [List.all_append, h]
          show (decide (50000 ≤ (pending ++ seedKeep known avail (remote start)).length)
            && true) = true
          rw [decide_eq_true
            (show 50000 ≤ (pending ++ seedKeep known avail (remote start)).length
              from hflush)]
          rfl
        by_cases hshort : (remote start).length < batch_size
        · rw [if_pos hshort]
          exact seedFinish_events_all dataset _ _ _ _ _ hgood
        · rw [if_neg hshort]
          exact ih _ _ _ _ _ hgood
      · rw [if_neg hflush]
        by_cases hshort : (remote start).length < batch_size
        · rw [if_pos hshort]
          exact seedFinish_events_all dataset _ _ _ _ _ h
        · rw [if_neg hshort]
          exact ih _ _ _ _ _ h

theorem seedLoop_flush_step (remote : Nat → List Scene) (dataset : String)
    (known avail : String → Bool) (fuel start : Nat) (pending : List Scene)
    (db : Database) (added : Nat) (events : List SeedEvent)
    (hne : (remote start).isEmpty = false)
    (hflush : flush_every * batch_size
      ≤ (pending ++ seedKeep known avail (remote start)).length) :
    seedLoop remote dataset known avail (fuel + 1) start pending db added events
      = (if (remote start).length < batch_size then
          seedFinish dataset []
            ((db.add_scenes (pending ++ seedKeep known avail (remote start)) dataset
              false).save_seed_cursor dataset (start + batch_size))
            (added + (pending ++ seedKeep known avail (remote start)).length)
            (events ++ [SeedEvent.flush
              (pending ++ seedKeep known avail (remote start)).length (start + batch_size)])
            (start + batch_size)
        else
          seedLoop remote dataset known avail fuel (start + batch_size) []
            ((db.add_scenes (pending ++ seedKeep known avail (remote start)) dataset
              false).save_seed_cursor dataset (start + batch_size))
            (added + (pending ++ seedKeep known avail (remote start)).length)
            (events ++ [SeedEvent.flush
              (pending ++ seedKeep known avail (remote start)).length
              (start + batch_size)])) := by
  rw [seedLoop, if_neg (by rw [hne]; exact Bool.false_ne_true : ¬ (remote start).isEmpty = true)]
  dsimp only
  rw [if_pos hflush]

theorem seedKeep_replicateN (n : Nat) :
    seedKeep (fun _ => false) (fun _ => false) (List.replicate n sceneN)
      = List.replicate n sceneN := by
  induction n with
  | zero => rfl
  | succ n ih =>
    rw [List.replicate_succ, seedKeep, List.filter_cons_of_pos (by decide)]
    rw [seedKeep] at ih
    rw [ih]

theorem seedKeep_pageN :
    seedKeep (fun _ => false) (fun _ => false) fullPageN = fullPageN := by
  rw [fullPageN]
  exact seedKeep_replicateN 10000

theorem fullPageN_length : fullPageN.length = 10000 := by
  rw [fullPageN, List.length_replicate]

theorem pageOracleN_full (start : Nat) (h : start ≤ 40001) :
    pageOracleN start = fullPageN := by
  rw [pageOracleN]
  exact if_pos h

theorem pageOracleN_empty (start : Nat) (h : ¬ start ≤ 40001) :
    pageOracleN start = [] := by
  rw [pageOracleN]
  exact if_neg h

theorem seedLoop_pageN_step (fuel start m : Nat) (db : Database) (added : Nat)
    (events : List SeedEvent) (hstart : start ≤ 40001) (hm : m + 10000 < 50000) :
    seedLoop pageOracleN "corona2" (fun _ => false) (fun _ => false)
        (fuel + 1) start (List.replicate m sceneN) db added events
      = seedLoop pageOracleN "corona2" (fun _ => false) (fun _ => false)
          fuel (start + batch_size) (List.replicate (m + 10000) sceneN) db added events := by
  rw [seedLoop, pageOracleN_full start hstart]
  rw [if_neg (by decide : ¬ fullPageN.isEmpty = true)]
  dsimp only
  rw [seedKeep_pageN]
  rw [show List.replicate m sceneN ++ fullPageN = List.replicate (m + 10000) sceneN from by
    rw [fullPageN, ← List.replicate_add]]
  rw [if_neg (by
    rw [List.length_replicate, show flush_every * batch_size = 50000 from rfl]
    omega : ¬ flush_every * batch_size ≤ (List.replicate (m + 10000) sceneN).length)]
  rw [if_neg (by
    rw [fullPageN_length, show batch_size = 10000 from rfl]
    omega : ¬ fullPageN.length < batch_size)]

theorem seedLoop_pageN_finish (fuel : Nat) (db : Database) (added : Nat)
    (events : List SeedEvent) (start : Nat) (hstart : ¬ start ≤ 40001) :
    seedLoop pageOracleN "corona2" (fun _ => false) (fun _ => false) (fuel + 1) start [] db
        added events
      = ⟨db.clear_seed_cursor "corona2", added, events ++ [SeedEvent.clearCursor], start,
          true⟩ := by
  rw [seedLoop, pageOracleN_empty start hstart]
  rfl

/-- C6 (amended): during a backfill walk the buffer is flushed to the
store and the advanced cursor persisted whenever the buffered unscanned
records reach five pages worth (flush_every * batch_size = 50 000
records), not after every five fetched pages.  First conjunct: whenever
the fetched page is nonempty and the buffer reaches the threshold, the
loop step adds the buffered scenes to the store, saves the cursor at the
advanced position, empties the buffer and records the flush event, then
finishes (short page) or continues (full page).  Second conjunct: every
mid-walk flush event of any walk carries at least 50 000 buffered
records, so a crash loses the records buffered since the last flush,
which can span more than five pages when pages contain already-known
records.  Third conjunct: a concrete five-full-page walk whose records
are all unscanned flushes once, at 50 000 records, with the cursor saved
at position 50 001. -/
theorem C6_flush_on_buffer (remote : Nat → List Scene) (dataset : String)
    (known avail : String → Bool) (fuel : Nat) (db : Database) :
    (∀ (fuel2 start : Nat) (pending : List Scene) (db2 : Database) (added : Nat)
        (events : List SeedEvent),
      (remote start).isEmpty = false →
      flush_every * batch_size ≤ (pending ++ seedKeep known avail (remote start)).length →
      seedLoop remote dataset known avail (fuel2 + 1) start pending db2 added events
        = (if (remote start).length < batch_size then
            seedFinish dataset []
              ((db2.add_scenes (pending ++ seedKeep known avail (remote start)) dataset
                false).save_seed_cursor dataset (start + batch_size))
              (added + (pending ++ seedKeep known avail (remote start)).length)
              (events ++ [SeedEvent.flush
                (pending ++ seedKeep known avail (remote start)).length
                (start + batch_size)])
              (start + batch_size)
          else
            seedLoop remote dataset known avail fuel2 (start + batch_size) []
              ((db2.add_scenes (pending ++ seedKeep known avail (remote start)) dataset
                false).save_seed_cursor dataset (start + batch_size))
              (added + (pending ++ seedKeep known avail (remote start)).length)
              (events ++ [SeedEvent.flush
                (pending ++ seedKeep known avail (remote start)).length
                (start + batch_size)]))) ∧
    (search_all_scenes remote dataset db known avail fuel).events.all goodFlushEvent
      = true ∧
    (search_all_scenes pageOracleN "corona2" ⟨[], []⟩ (fun _ => false) (fun _ => false)
        7).events = [SeedEvent.flush 50000 50001, SeedEvent.clearCursor] := by
  refine ⟨?_, ?_, ?_⟩
  · intro fuel2 start pending db2 added events hne hflush
    exact seedLoop_flush_step remote dataset known avail fuel2 start pending db2 added
      events hne hflush
  · exact seedLoop_events_all remote dataset known avail fuel
      (db.get_seed_cursor dataset) [] db 0 [] rfl
  · have hflush5 : flush_every * batch_size
        ≤ (List.replicate 40000 sceneN ++ seedKeep (fun _ => false) (fun _ => false)
          (pageOracleN (1 + batch_size + batch_size + batch_size + batch_size))).length := by
      rw [pageOracleN_full _ (by decide), seedKeep_pageN, List.length_append,
        List.length_replicate, fullPageN_length]
      decide
    have hwalk := (seedLoop_pageN_step 6 1 0 ⟨[], []⟩ 0 [] (by decide) (by decide)).trans
      ((seedLoop_pageN_step 5 (1 + batch_size) 10000 ⟨[], []⟩ 0 []
          (by decide) (by decide)).trans
        ((seedLoop_pageN_step 4 (1 + batch_size + batch_size) 20000 ⟨[], []⟩ 0 []
            (by decide) (by decide)).trans
          ((seedLoop_pageN_step 3 (1 + batch_size + batch_size + batch_size) 30000
              ⟨[], []⟩ 0 [] (by decide) (by decide)).trans
            ((seedLoop_flush_step pageOracleN "corona2" (fun _ => false) (fun _ => false) 2
                (1 + batch_size + batch_size + batch_size + batch_size)
                (List.replicate 40000 sceneN) ⟨[], []⟩ 0 []
                (by rw [pageOracleN_full _ (by decide)]; rfl) hflush5).trans
              ((if_neg (by
                  rw [pageOracleN_full _ (by decide), fullPageN_length,
                    show batch_size = 10000 from rfl]
                  omega)).trans
                (seedLoop_pageN_finish 1 _ _ _ _ (by decide)))))))
    have htail : (([] ++ [SeedEvent.flush
        (List.replicate 40000 sceneN ++ seedKeep (fun _ => false) (fun _ => false)
          (pageOracleN (1 + batch_size + batch_size + batch_size + batch_size))).length
        (1 + batch_size + batch_size + batch_size + batch_size + batch_size)])
        ++ [SeedEvent.clearCursor])
        = [SeedEvent.flush 50000 50001, SeedEvent.clearCursor] := by
      rw [show (List.replicate 40000 sceneN ++ seedKeep (fun _ => false) (fun _ => false)
          (pageOracleN (1 + batch_size + batch_size + batch_size + batch_size))).length
          = 50000 from by
        rw [pageOracleN_full _ (by decide), seedKeep_pageN, List.length_append,
          List.length_replicate, fullPageN_length]]
      rfl
    exact (congrArg SeedOut.events hwalk).trans htail

theorem C6_flush_on_buffer_witness :
    seedLoop pageOracleN "corona2" (fun _ => false) (fun _ => false) (1 + 1) 40001
        (List.replicate 40000 sceneN) ⟨[], []⟩ 40000 []
      = (if (pageOracleN 40001).length < batch_size then
          seedFinish "corona2" []
            (((⟨[], []⟩ : Database).add_scenes
              (List.replicate 40000 sceneN ++ seedKeep (fun _ => false) (fun _ => false)
                (pageOracleN 40001)) "corona2" false).save_seed_cursor "corona2"
              (40001 + batch_size))
            (40000 + (List.replicate 40000 sceneN ++ seedKeep (fun _ => false)
              (fun _ => false) (pageOracleN 40001)).length)
            ([] ++ [SeedEvent.flush (List.replicate 40000 sceneN
              ++ seedKeep (fun _ => false) (fun _ => false) (pageOracleN 40001)).length
              (40001 + batch_size)])
            (40001 + batch_size)
        else
          seedLoop pageOracleN "corona2" (fun _ => false) (fun _ => false) 1
            (40001 + batch_size) []
            (((⟨[], []⟩ : Database).add_scenes
              (List.replicate 40000 sceneN ++ seedKeep (fun _ => false) (fun _ => false)
                (pageOracleN 40001)) "corona2" false).save_seed_cursor "corona2"
              (40001 + batch_size))
            (40000 + (List.replicate 40000 sceneN ++ seedKeep (fun _ => false)
              (fun _ => false) (pageOracleN 40001)).length)
            ([] ++ [SeedEvent.flush (List.replicate 40000 sceneN
              ++ seedKeep (fun _ => false) (fun _ => false) (pageOracleN 40001)).length
              (40001 + batch_size)])) :=
  (C6_flush_on_buffer pageOracleN "corona2" (fun _ => false) (fun _ => false) 7
    ⟨[], []⟩).1 1 40001 (List.replicate 40000 sceneN) ⟨[], []⟩ 40000 []
    (by rw [pageOracleN_full 40001 (by decide)]; rfl)
    (by
      rw [pageOracleN_full 40001 (by decide), seedKeep_pageN, List.length_append,
        List.length_replicate, fullPageN_length]
      decide)

end DeclassMonitor
